import Mathlib

/-!
Verification development for the Brain alpha-generator core:
shallow embedding of the static validator, validation gate & repair
synthesizer, budget enforcer and validation-repair loop, together with
theorems about the specified properties.

Python `re` patterns are embedded as explicit character-list scanners,
Python `int`s as `Int`/`Nat` and `float`s as `ℚ`; dict payloads that the
code reads through fixed keys are embedded as typed structures.
-/

namespace BrainAgent

/-- Characters accepted by `ALLOWED_CHAR_RE = ^[A-Za-z0-9_.,()\-+*/\s]+$`. -/
def allowedChar (c : Char) : Bool :=
  c.isAlpha || c.isDigit || c == '_' || c == '.' || c == ',' || c == '(' || c == ')' ||
    c == '-' || c == '+' || c == '*' || c == '/' || c.isWhitespace

/-- First character of `IDENT_RE = [A-Za-z_][A-Za-z0-9_]*`. -/
def isIdentStart (c : Char) : Bool :=
  c.isAlpha || c == '_'

/-- Continuation character of `IDENT_RE`. -/
def isIdentChar (c : Char) : Bool :=
  c.isAlpha || c.isDigit || c == '_'

/-- Python `str.strip()` on a character list. -/
def stripChars (cs : List Char) : List Char :=
  ((cs.dropWhile Char.isWhitespace).reverse.dropWhile Char.isWhitespace).reverse

/-- Python `str.strip()`. -/
def stripString (s : String) : String :=
  String.mk (stripChars s.data)

/-- Python `str.upper()` (character-wise ASCII upper-casing). -/
def pyUpper (s : String) : String :=
  String.mk (s.data.map Char.toUpper)

/-- `str.startswith(p)`. -/
def strStartsWith (s p : String) : Bool :=
  p.data.isPrefixOf s.data

/-- `sep.join(xs)`. -/
def joinSep (sep : String) : List String → String
  | [] => ""
  | [x] => x
  | x :: rest => x ++ sep ++ joinSep sep rest

/-- `IDENT_RE.findall` scan: leftmost, non-overlapping, maximal identifier
tokens (fuel-structural; each step consumes at least one character, so
`length + 1` fuel is exact). -/
def findIdentsGo (fuel : Nat) : List Char → List String
  | [] => []
  | c :: cs =>
    match fuel with
    | 0 => []
    | f + 1 =>
      if isIdentStart c then
        String.mk (c :: cs.takeWhile isIdentChar) :: findIdentsGo f (cs.dropWhile isIdentChar)
      else
        findIdentsGo f cs

/-- `IDENT_RE.findall(text)`. -/
def findIdents (cs : List Char) : List String :=
  findIdentsGo (cs.length + 1) cs

/-- `NUMBER_RE = ^-?\d+(\.\d+)?$` as a whole-token test. -/
def isNumberChars (cs0 : List Char) : Bool :=
  let cs := match cs0 with
    | '-' :: r => r
    | other => other
  let ds := cs.takeWhile Char.isDigit
  let rest := cs.dropWhile Char.isDigit
  if ds.isEmpty then false
  else
    match rest with
    | [] => true
    | '.' :: r2 => !(r2.takeWhile Char.isDigit).isEmpty && (r2.dropWhile Char.isDigit).isEmpty
    | _ => false

/-- `NUMBER_RE.match(tok)` on a token string. -/
def isNumberTok (s : String) : Bool :=
  isNumberChars s.data

/-- `_balanced_parentheses`: depth counter that fails on early close. -/
def balancedParensGo : List Char → Int → Bool
  | [], depth => depth == 0
  | c :: cs, depth =>
    if c == '(' then balancedParensGo cs (depth + 1)
    else if c == ')' then
      if depth - 1 < 0 then false else balancedParensGo cs (depth - 1)
    else balancedParensGo cs depth

/-- `_balanced_parentheses(text)`. -/
def balancedParens (cs : List Char) : Bool :=
  balancedParensGo cs 0

/-- `_unique(values)`: stable de-duplication via a seen-set. -/
def uniqueAux : List String → List String → List String
  | [], _ => []
  | x :: xs, seen =>
    if seen.contains x then uniqueAux xs seen else x :: uniqueAux xs (x :: seen)

/-- `_unique(values)` from the validator / gate modules. -/
def uniqueList (xs : List String) : List String :=
  uniqueAux xs []

/-- `_skip_spaces(text, idx)` (fuel-structural scan). -/
def skipSpacesGo (fuel : Nat) (text : List Char) (idx : Nat) : Nat :=
  match fuel with
  | 0 => idx
  | f + 1 =>
    if h : idx < text.length then
      if (text.get ⟨idx, h⟩).isWhitespace then skipSpacesGo f text (idx + 1) else idx
    else idx

/-- `_skip_spaces(text, idx)`. -/
def skipSpaces (text : List Char) (idx : Nat) : Nat :=
  skipSpacesGo (text.length + 1) text idx

/-- `_find_closing_paren`, scanning from `idx` with running `depth`;
`none` plays the role of the Python `-1` sentinel. -/
def findClosingParenGo (fuel : Nat) (text : List Char) (idx : Nat) (depth : Int) : Option Nat :=
  match fuel with
  | 0 => none
  | f + 1 =>
    if h : idx < text.length then
      let ch := text.get ⟨idx, h⟩
      if ch == '(' then findClosingParenGo f text (idx + 1) (depth + 1)
      else if ch == ')' then
        if depth - 1 == 0 then some idx else findClosingParenGo f text (idx + 1) (depth - 1)
      else findClosingParenGo f text (idx + 1) depth
    else none

/-- `_find_closing_paren(text, open_idx)`. -/
def findClosingParen (text : List Char) (openIdx : Nat) : Option Nat :=
  findClosingParenGo (text.length + 1) text openIdx 0

/-- The comma-splitting loop of `_split_args` (top-level commas only),
with Python's conditional append of the final stripped segment. -/
def splitArgsGo (fuel : Nat) (text : List Char) (idx : Nat) (depth : Int) (start : Nat)
    (acc : List String) : List String :=
  match fuel with
  | 0 => acc
  | f + 1 =>
    if h : idx < text.length then
      let ch := text.get ⟨idx, h⟩
      if ch == '(' then splitArgsGo f text (idx + 1) (depth + 1) start acc
      else if ch == ')' then splitArgsGo f text (idx + 1) (depth - 1) start acc
      else if ch == ',' && depth == 0 then
        splitArgsGo f text (idx + 1) depth (idx + 1)
          (acc ++ [stripString (String.mk ((text.drop start).take (idx - start)))])
      else splitArgsGo f text (idx + 1) depth start acc
    else
      let finalArg := stripString (String.mk (text.drop start))
      if !finalArg.isEmpty || (stripChars text).isEmpty then acc ++ [finalArg] else acc

/-- `_split_args(text)`. -/
def splitArgs (text : List Char) : List String :=
  let args := splitArgsGo (text.length + 1) text 0 0 0 []
  if args = [""] then [] else args

/-- One `(operator_name, args[])` call record from `_extract_calls`. -/
structure FunctionCall where
  name : String
  args : List String
deriving DecidableEq, Repr

/-- The index-driven scanner loop of `_extract_calls` (fuel-structural:
one fuel unit per loop step or recursion into an argument substring;
`extractCalls` supplies enough fuel for any input). -/
def extractCallsGo (fuel : Nat) (text : List Char) (idx : Nat) : List FunctionCall :=
  match fuel with
  | 0 => []
  | f + 1 =>
    if hq : idx < text.length then
      if isIdentStart (text.get ⟨idx, hq⟩) then
        let tokenLen := 1 + ((text.drop (idx + 1)).takeWhile isIdentChar).length
        let name := String.mk ((text.drop idx).take tokenLen)
        let endIdx := idx + tokenLen
        let nextIdx := skipSpaces text endIdx
        if hnext : nextIdx < text.length then
          if text.get ⟨nextIdx, hnext⟩ == '(' then
            match findClosingParen text nextIdx with
            | none => extractCallsGo f text (nextIdx + 1)
            | some endParen =>
              let argText := (text.drop (nextIdx + 1)).take (endParen - (nextIdx + 1))
              let args := splitArgs argText
              let nested := args.flatMap fun a => extractCallsGo f a.data 0
              FunctionCall.mk name args :: (nested ++ extractCallsGo f text (endParen + 1))
          else extractCallsGo f text endIdx
        else extractCallsGo f text endIdx
      else extractCallsGo f text (idx + 1)
    else []

/-- `_extract_calls(text)`: the scanner makes fewer than
`(length + 1) * (length + 1)` steps in total across all nesting levels,
so that much fuel is always sufficient. -/
def extractCalls (s : String) : List FunctionCall :=
  extractCallsGo ((s.data.length + 1) * (s.data.length + 1)) s.data 0

/-- A piece of one of the taxonomy regular expressions: a literal segment,
`.+` (at least one character) or `.*` (any run). -/
inductive RePiece where
  | lit (s : String)
  | anyPlus
  | anyStar
deriving DecidableEq

/-- Match a piece sequence against the start of `text`
(existential semantics, as `re` backtracking would decide it). -/
def matchPieces : List RePiece → List Char → Bool
  | [], _ => true
  | .lit s :: rest, text => s.data.isPrefixOf text && matchPieces rest (text.drop s.data.length)
  | .anyPlus :: rest, text => (List.range text.length).any fun k => matchPieces rest (text.drop (k + 1))
  | .anyStar :: rest, text => (List.range (text.length + 1)).any fun k => matchPieces rest (text.drop k)

/-- `re.search` truthiness: the pieces match somewhere in `text`. -/
def searchPieces (ps : List RePiece) (text : List Char) : Bool :=
  (List.range (text.length + 1)).any fun i => matchPieces ps (text.drop i)

/-- One `match_pattern` of the validation-error taxonomy: either a fully
anchored `^...$` literal or an unanchored `re.search` pattern. -/
inductive TaxPattern where
  | exact (s : String)
  | search (ps : List RePiece)
deriving DecidableEq

/-- Truthiness of `pattern.search(msg)` (resp. the anchored match). -/
def matchTaxPattern : TaxPattern → String → Bool
  | .exact s, msg => msg == s
  | .search ps, msg => searchPieces ps msg.data

/-- One row of `VALIDATION_ERROR_TAXONOMY`. -/
structure TaxonomyRow where
  error_key : String
  match_pattern : TaxPattern
  severity : String
  fix_hint : String
deriving DecidableEq

/-- `VALIDATION_ERROR_TAXONOMY` from `static_validator.py`. -/
def VALIDATION_ERROR_TAXONOMY : List TaxonomyRow :=
  [ ⟨"empty_expression", .exact "Expression is empty", "high",
      "식이 비어 있습니다. FastExpr 본문을 생성하고 마지막 반환식을 포함하세요."⟩,
    ⟨"unsupported_characters", .search [.lit "Expression contains unsupported characters"], "high",
      "허용되지 않은 문자를 제거하고 FastExpr 연산자/식별자만 사용하세요."⟩,
    ⟨"unbalanced_parentheses", .search [.lit "Parentheses are not balanced"], "high",
      "괄호 쌍을 맞추고 중첩 호출을 단순화하세요."⟩,
    ⟨"unknown_operator", .search [.lit "Unknown operator:"], "high",
      "retrieval pack 내 candidate_operators 목록에서 연산자로 치환하세요."⟩,
    ⟨"unknown_data_field", .search [.lit "Unknown data field:"], "high",
      "retrieval pack 내 candidate_fields 목록에서 필드로 치환하세요."⟩,
    ⟨"operator_no_arguments", .search [.lit "Operator ", .anyPlus, .lit " has no arguments"], "medium",
      "operator signature에 맞는 필수 인자를 채우세요."⟩,
    ⟨"operator_empty_argument", .search [.lit "Operator ", .anyPlus, .lit " has an empty argument"], "medium",
      "빈 인자를 제거하고 positional 순서를 다시 맞추세요."⟩,
    ⟨"operator_arity_mismatch", .search [.lit "Operator ", .anyPlus, .lit " expects ", .anyPlus, .lit " args but got ", .anyPlus], "high",
      "definition의 인자 개수와 순서를 정확히 맞추세요."⟩,
    ⟨"operator_scope_violation", .search [.lit "scope ", .anyStar, .lit " is not valid in REGULAR"], "high",
      "REGULAR scope를 지원하는 연산자로 교체하세요."⟩,
    ⟨"ts_non_matrix_input", .search [.lit "ts_ operator ", .anyPlus, .lit " received non-MATRIX field"], "high",
      "ts_ 계열에는 MATRIX 필드만 입력하세요."⟩,
    ⟨"group_requires_group_and_matrix", .search [.lit "group_ operator ", .anyPlus, .lit " requires GROUP and MATRIX fields"], "high",
      "group_ 연산자는 GROUP 필드와 MATRIX 필드를 함께 넣으세요."⟩,
    ⟨"vector_used_in_non_vec", .search [.lit "VECTOR field ", .anyPlus, .lit " used in non-vec_ operator"], "high",
      "VECTOR 필드는 vec_ 계열로 먼저 집계한 뒤 사용하세요."⟩ ]

/-- One operator catalog row as the validator consumes it: `name`, the
`scope` payload (list form, `None` embedded as `[]`) and the result of
`_extract_arity` on the row. -/
structure OperatorRow where
  name : String
  scope : List String
  arity : Option Int
deriving DecidableEq

/-- One data-field catalog row: `id` and the raw `type` payload. -/
structure FieldRow where
  id : String
  ftype : String
deriving DecidableEq

/-- `StaticValidator`: operator/field catalogs plus the safe-regular flag.
The Python constructor builds name-keyed dicts from the row lists; the
dict lookups are embedded below (`lookupOperatorRow`, `lookupFieldRow`). -/
structure StaticValidator where
  operators : List OperatorRow
  fields : List FieldRow
  safe_regular_only : Bool
deriving DecidableEq

/-- Dict lookup in `self.operators` (rows with falsy names are excluded;
later duplicates overwrite earlier ones). -/
def lookupOperatorRow (rows : List OperatorRow) (name : String) : Option OperatorRow :=
  if name = "" then none
  else (rows.filter fun r => r.name == name).getLast?

/-- Dict lookup in `self.fields`. -/
def lookupFieldRow (rows : List FieldRow) (fid : String) : Option FieldRow :=
  if fid = "" then none
  else (rows.filter fun r => r.id == fid).getLast?

/-- `_parse_scope` on the list payload: upper-cased scope set
(embedded as its stably de-duplicated list). -/
def parseScope (xs : List String) : List String :=
  uniqueList (xs.map pyUpper)

/-- `self.operator_scopes.get(name, set())`. -/
def operatorScopes (sv : StaticValidator) (name : String) : List String :=
  match lookupOperatorRow sv.operators name with
  | some r => parseScope r.scope
  | none => []

/-- `self.operator_arity.get(name)`. -/
def operatorArity (sv : StaticValidator) (name : String) : Option Int :=
  (lookupOperatorRow sv.operators name).bind OperatorRow.arity

/-- `self.field_types.get(fid)`: upper-cased type of a known field. -/
def fieldTypeOf (sv : StaticValidator) (fid : String) : Option String :=
  (lookupFieldRow sv.fields fid).map fun r => pyUpper r.ftype

/-- Python `str(sorted(...))` rendering of a string list, as interpolated
into the scope-violation message. -/
def pyStrList (xs : List String) : String :=
  "[" ++ joinSep ", " (xs.map fun s => "\x27" ++ s ++ "\x27") ++ "]"

/-- The code-point lexicographic order Python compares strings by. -/
abbrev strDataLe (a b : String) : Prop :=
  a.data ≤ b.data

instance strDataLe_total : IsTotal String strDataLe :=
  ⟨fun a b => le_total a.data b.data⟩

instance strDataLe_trans : IsTrans String strDataLe :=
  ⟨fun _ _ _ h1 h2 => le_trans h1 h2⟩

instance strDataLe_antisymm : IsAntisymm String strDataLe :=
  ⟨fun a b h1 h2 => by
    cases a
    cases b
    exact congrArg String.mk (le_antisymm h1 h2)⟩

/-- `sorted(...)` on strings. -/
def sortedStrings (xs : List String) : List String :=
  List.insertionSort strDataLe xs

/-- The per-call error block of `StaticValidator.validate` (the loop body,
with `continue` after an unknown operator). -/
def callErrors (sv : StaticValidator) (alphaType : String) (call : FunctionCall) : List String :=
  match lookupOperatorRow sv.operators call.name with
  | none => ["Unknown operator: " ++ call.name]
  | some _ =>
    (if call.args.isEmpty then ["Operator " ++ call.name ++ " has no arguments"] else [])
    ++ (if call.args.any (fun a => (stripString a).isEmpty) then
          ["Operator " ++ call.name ++ " has an empty argument"] else [])
    ++ (match operatorArity sv call.name with
        | some expected =>
          if (call.args.length : Int) ≠ expected then
            ["Operator " ++ call.name ++ " expects " ++ toString expected ++
              " args but got " ++ toString call.args.length]
          else []
        | none => [])
    ++ (let scopes := operatorScopes sv call.name
        if !scopes.isEmpty then
          if pyUpper alphaType == "REGULAR" && !(scopes.contains "REGULAR") then
            ["Operator " ++ call.name ++ " scope " ++ pyStrList (sortedStrings scopes) ++
              " is not valid in REGULAR"]
          else []
        else
          if sv.safe_regular_only && pyUpper alphaType ≠ "REGULAR" then
            ["Operator " ++ call.name ++ " has unknown scope and is blocked in non-REGULAR mode"]
          else [])

/-- `_extract_identifiers_from_args`. -/
def extractIdentifiersFromArgs (args : List String) : List String :=
  args.flatMap fun a => findIdents a.data

/-- The body of `StaticValidator._type_checks` for one call. -/
def typeCheckErrorsForCall (sv : StaticValidator) (call : FunctionCall) : List String :=
  let arg_ids := (extractIdentifiersFromArgs call.args).filter fun tok =>
    (lookupFieldRow sv.fields tok).isSome
  let pairs := arg_ids.map fun fid => (fid, (fieldTypeOf sv fid).getD "")
  let tsErrors :=
    if strStartsWith call.name "ts_" then
      (pairs.filter fun p => p.2 ≠ "" && p.2 ≠ "MATRIX").map fun p =>
        "ts_ operator " ++ call.name ++ " received non-MATRIX field " ++ p.1 ++ ":" ++ p.2
    else []
  let groupErrors :=
    if strStartsWith call.name "group_" then
      if (pairs.any fun p => p.2 == "GROUP") && (pairs.any fun p => p.2 == "MATRIX") then []
      else ["group_ operator " ++ call.name ++ " requires GROUP and MATRIX fields"]
    else []
  let vecErrors :=
    if !arg_ids.isEmpty && !(strStartsWith call.name "vec_") then
      (pairs.filter fun p => p.2 == "VECTOR").map fun p =>
        "VECTOR field " ++ p.1 ++ " used in non-vec_ operator " ++ call.name
    else []
  tsErrors ++ groupErrors ++ vecErrors

/-- `StaticValidator._type_checks(calls)`. -/
def typeChecks (sv : StaticValidator) (calls : List FunctionCall) : List String :=
  calls.flatMap (typeCheckErrorsForCall sv)

/-- `ValidationReport`. -/
structure ValidationReport where
  is_valid : Bool
  errors : List String
  warnings : List String
  used_operators : List String
  used_fields : List String
deriving DecidableEq

/-- `StaticValidator.validate(expression, alpha_type=...)`. -/
def validate (sv : StaticValidator) (expression : String) (alphaType : String) : ValidationReport :=
  if (stripString expression).isEmpty then
    { is_valid := false, errors := ["Expression is empty"], warnings := [],
      used_operators := [], used_fields := [] }
  else
    let charErrors :=
      if expression.data.all allowedChar then [] else ["Expression contains unsupported characters"]
    let parenErrors :=
      if balancedParens expression.data then [] else ["Parentheses are not balanced"]
    let calls := extractCalls expression
    let used_operators := uniqueList (calls.map FunctionCall.name)
    let callErrs := calls.flatMap (callErrors sv alphaType)
    let all_identifiers := uniqueList (findIdents expression.data)
    let used_fields := all_identifiers.filter fun tok =>
      !used_operators.contains tok && !isNumberTok tok
    let fieldErrs := (used_fields.filter fun f => (lookupFieldRow sv.fields f).isNone).map
      fun f => "Unknown data field: " ++ f
    let typeErrs := typeChecks sv calls
    let warnings :=
      if calls.length > 20 then
        ["Expression is complex (>20 calls); consider simplification for stability"]
      else []
    let errors := charErrors ++ parenErrors ++ callErrs ++ fieldErrs ++ typeErrs
    { is_valid := errors.isEmpty,
      errors := uniqueList errors,
      warnings := uniqueList warnings,
      used_operators := used_operators,
      used_fields := uniqueList (used_fields.filter fun f => (lookupFieldRow sv.fields f).isSome) }

/-- `ValidationIssue` of the gate. -/
structure ValidationIssue where
  code : String
  message : String
  severity : String
  fix_hint : String
deriving DecidableEq

/-- `ValidationGate._map_error`: first matching taxonomy row wins,
with the generic `validation_error` fallback. -/
def mapErrorGo : List TaxonomyRow → String → ValidationIssue
  | [], msg => ⟨"validation_error", msg, "medium", "오류 메시지를 기준으로 식/인자를 재구성하세요."⟩
  | row :: rest, msg =>
    if matchTaxPattern row.match_pattern msg then ⟨row.error_key, msg, row.severity, row.fix_hint⟩
    else mapErrorGo rest msg

/-- `ValidationGate._map_error(message)`. -/
def mapError (msg : String) : ValidationIssue :=
  mapErrorGo VALIDATION_ERROR_TAXONOMY msg

/-- `ValidationGate.classify_errors(errors)`. -/
def classifyErrors (errors : List String) : List ValidationIssue :=
  errors.map mapError

/-- `"|".join(xs)`. -/
def joinBar : List String → String
  | [] => ""
  | [c] => c
  | c :: rest => c ++ "|" ++ joinBar rest

/-- The `error_signature` computation of `ValidationGate.validate_candidate`:
sorted join of issue codes, or the literal `VALID`. -/
def errorSignature (issues : List ValidationIssue) : String :=
  if issues.isEmpty then "VALID"
  else joinBar (sortedStrings (issues.map ValidationIssue.code))

/-- `CandidateSimulation` (field `type` is embedded as `simType`). -/
structure CandidateSimulation where
  simType : String
  regular : Option String
  selection : Option String
  combo : Option String
deriving DecidableEq

/-- `GenerationNotes`, including the attributes the orchestrator and gate
read/write on it. -/
structure GenerationNotes where
  used_fields : List String
  used_operators : List String
  candidate_lane : String
  validation_passed : Bool
  validation_attempts : Nat
deriving DecidableEq

/-- `CandidateAlpha`. -/
structure CandidateAlpha where
  idea_id : String
  alpha_id : Option String
  simulation_settings : CandidateSimulation
  generation_notes : GenerationNotes
deriving DecidableEq

/-- Python `a or b` on an optional string (empty strings are falsy). -/
def truthyOr (a : Option String) (b : String) : String :=
  match a with
  | some s => if s.isEmpty then b else s
  | none => b

/-- `_candidate_expression(candidate)`: `sim.regular or sim.combo or ""`. -/
def candidateExpression (c : CandidateAlpha) : String :=
  truthyOr c.simulation_settings.regular (truthyOr c.simulation_settings.combo "")

/-- `ValidationGateResult`. -/
structure ValidationGateResult where
  report : ValidationReport
  issues : List ValidationIssue
  error_signature : String
deriving DecidableEq

/-- `ValidationGateResult.is_valid`. -/
def ValidationGateResult.is_valid (r : ValidationGateResult) : Bool :=
  r.report.is_valid

/-- `ValidationGate.validate_candidate(candidate)`. -/
def validateCandidate (sv : StaticValidator) (c : CandidateAlpha) : ValidationGateResult :=
  let expression := candidateExpression c
  let report := validate sv expression c.simulation_settings.simType
  let issues := classifyErrors report.errors
  { report := report, issues := issues, error_signature := errorSignature issues }

/-- `FieldCandidate` of the retrieval pack (`type` embedded as `ftype`). -/
structure FieldCandidate where
  id : String
  dataset_id : String
  ftype : String
  lane : String
  score : ℚ
deriving DecidableEq

/-- `OperatorCandidate` (`definition` embedded as `defn`). -/
structure OperatorCandidate where
  name : String
  defn : Option String
  scope : List String
  category : Option String
  lane : String
  score : ℚ
deriving DecidableEq

/-- `DatasetCandidate`. -/
structure DatasetCandidate where
  id : String
  name : String
  subcategory_id : String
  lane : String
  score : ℚ
deriving DecidableEq

/-- `LaneSelection`. -/
structure LaneSelection where
  field_ids : List String
  operator_names : List String
deriving DecidableEq

/-- `RetrievalTokenEstimate`. -/
structure RetrievalTokenEstimate where
  input_chars : Nat
  input_tokens_rough : Nat
deriving DecidableEq

/-- The `candidate_counts` / `selected_topk` dict shape. -/
structure CandidateCounts where
  subcategories : Nat
  datasets : Nat
  fields : Nat
  operators : Nat
deriving DecidableEq

/-- `RetrievalTelemetry`. -/
structure RetrievalTelemetry where
  retrieval_ms : Int
  candidate_counts : CandidateCounts
deriving DecidableEq

/-- `RetrievalContextGuard` (`max_items` is a string-keyed int dict). -/
structure RetrievalContextGuard where
  full_metadata_blocked : Bool
  rules : List String
  max_items : List (String × Int)
deriving DecidableEq

/-- One lane dict inside `pack.budget_policy` (`exploit` / `explore`). -/
structure LaneBudgetPayload where
  subcategories : Int
  datasets : Int
  fields : Int
  operators : Int
deriving DecidableEq

/-- The `llm_budget` entry `_sync_pack_contracts` writes into
`pack.budget_policy`. -/
structure LlmBudgetEntry where
  max_prompt_tokens : Int
  max_completion_tokens : Int
  max_tokens_per_batch : Int
  max_tokens_per_day : Int
deriving DecidableEq

/-- The `pack.budget_policy` payload dict. -/
structure BudgetPolicyPayload where
  exploitRatio : ℚ
  exploreRatio : ℚ
  exploit : LaneBudgetPayload
  explore : LaneBudgetPayload
  llm_budget : Option LlmBudgetEntry
deriving DecidableEq

/-- The `pack.expansion_policy` payload dict. -/
structure ExpansionPolicyPayload where
  enabled : Bool
  trigger_on_repeated_validation_error : Int
  topk_expand_factor : ℚ
deriving DecidableEq

/-- `RetrievalPack` (fields the core reads/writes; the visual graph and
target payloads are opaque to every claim and are omitted). -/
structure RetrievalPack where
  idea_id : String
  query : String
  selected_subcategories : List String
  candidate_datasets : List DatasetCandidate
  candidate_fields : List FieldCandidate
  candidate_operators : List OperatorCandidate
  lanes_exploit : LaneSelection
  lanes_explore : LaneSelection
  token_estimate : RetrievalTokenEstimate
  budget_policy : BudgetPolicyPayload
  expansion_policy : ExpansionPolicyPayload
  context_guard : RetrievalContextGuard
  telemetry : RetrievalTelemetry
deriving DecidableEq

/-- Python truthiness filter on an optional string
(`if value:` — `None` and `""` are falsy). -/
def truthyOpt (o : Option String) : Option String :=
  match o with
  | some s => if s.isEmpty then none else some s
  | none => none

/-- A piece of one of the gate's capture regexes: literal, `\s+`, `\s*`,
or the single `([A-Za-z_][A-Za-z0-9_]*)` capture group. Adjacent pieces
use disjoint character classes, so greedy maximal-munch matching is exact. -/
inductive CapPiece where
  | lit (s : String)
  | wsPlus
  | wsStar
  | capture
deriving DecidableEq

/-- Match capture pieces at the start of `text`; returns the captured
identifier and the remainder after the whole match. -/
def matchCapPieces : List CapPiece → List Char → Option String → Option (String × List Char)
  | [], rest, cap =>
    match cap with
    | some c => some (c, rest)
    | none => none
  | .lit s :: ps, text, cap =>
    if s.data.isPrefixOf text then matchCapPieces ps (text.drop s.data.length) cap else none
  | .wsPlus :: ps, text, cap =>
    if (text.takeWhile Char.isWhitespace).isEmpty then none
    else matchCapPieces ps (text.dropWhile Char.isWhitespace) cap
  | .wsStar :: ps, text, cap => matchCapPieces ps (text.dropWhile Char.isWhitespace) cap
  | .capture :: ps, text, cap =>
    match text with
    | c :: cs =>
      if isIdentStart c then
        matchCapPieces ps (cs.dropWhile isIdentChar) (some (String.mk (c :: cs.takeWhile isIdentChar)))
      else none
    | [] =>
      let _ := cap
      none

/-- `pattern.findall(message)`: non-overlapping left-to-right captures. -/
def findAllCapGo (fuel : Nat) (pat : List CapPiece) (text : List Char) : List String :=
  match fuel with
  | 0 => []
  | f + 1 =>
    match text with
    | [] => []
    | _ :: cs =>
      match matchCapPieces pat text none with
      | some (cap, rest) => cap :: findAllCapGo f pat rest
      | none => findAllCapGo f pat cs

/-- `pattern.findall(message)` with adequate fuel. -/
def findAllCap (pat : List CapPiece) (text : List Char) : List String :=
  findAllCapGo (text.length + 1) pat text

/-- `UNKNOWN_OPERATOR_RE = Unknown operator:\s*([A-Za-z_][A-Za-z0-9_]*)`. -/
def UNKNOWN_OPERATOR_PAT : List CapPiece :=
  [.lit "Unknown operator:", .wsStar, .capture]

/-- `UNKNOWN_FIELD_RE = Unknown data field:\s*([A-Za-z_][A-Za-z0-9_]*)`. -/
def UNKNOWN_FIELD_PAT : List CapPiece :=
  [.lit "Unknown data field:", .wsStar, .capture]

/-- `SCOPE_VIOLATION_RE = Operator\s+([A-Za-z_][A-Za-z0-9_]*)\s+scope`. -/
def SCOPE_VIOLATION_PAT : List CapPiece :=
  [.lit "Operator", .wsPlus, .capture, .wsPlus, .lit "scope"]

/-- `TS_NON_MATRIX_RE = received non-MATRIX field\s+([A-Za-z_][A-Za-z0-9_]*)`. -/
def TS_NON_MATRIX_PAT : List CapPiece :=
  [.lit "received non-MATRIX field", .wsPlus, .capture]

/-- `VECTOR_NON_VEC_RE = VECTOR field\s+([A-Za-z_][A-Za-z0-9_]*)`. -/
def VECTOR_NON_VEC_PAT : List CapPiece :=
  [.lit "VECTOR field", .wsPlus, .capture]

/-- The seen-set loop of `_extract_all`. -/
def extractAllLoop : List String → List String → List String
  | [], _ => []
  | v :: vs, seen =>
    let s := stripString v
    if s.isEmpty || seen.contains s then extractAllLoop vs seen
    else s :: extractAllLoop vs (s :: seen)

/-- `_extract_all(pattern, messages)`. -/
def extractAll (pat : List CapPiece) (messages : List String) : List String :=
  extractAllLoop (messages.flatMap fun m => findAllCap pat m.data) []

/-- Word characters for the `\b` boundaries of the substitution regexes. -/
def isWordChar (c : Char) : Bool :=
  c.isAlpha || c.isDigit || c == '_'

/-- `\s*\(` lookahead after an operator token. -/
def lookaheadParenOk (rest : List Char) : Bool :=
  match rest.dropWhile Char.isWhitespace with
  | '(' :: _ => true
  | _ => false

/-- `re.sub(rf"\b{src}(?=\s*\()", repl, expr)`: replace `src` where it
starts at a word boundary and is followed (after spaces) by `(`. -/
def subOpCallGo (fuel : Nat) (src repl : List Char) (prev : Option Char) :
    List Char → List Char
  | [] => []
  | c :: cs =>
    match fuel with
    | 0 => c :: cs
    | f + 1 =>
      let boundary :=
        match prev with
        | none => true
        | some p => !isWordChar p
      if boundary && src.isPrefixOf (c :: cs) && lookaheadParenOk ((c :: cs).drop src.length) then
        repl ++ subOpCallGo f src repl src.getLast? ((c :: cs).drop src.length)
      else
        c :: subOpCallGo f src repl (some c) cs

/-- `re.sub(rf"\b{src}(?=\s*\()", repl, expr)` on strings. -/
def subOpCall (src repl expr : String) : String :=
  String.mk (subOpCallGo (expr.data.length + 1) src.data repl.data none expr.data)

/-- `re.sub(rf"\b{src}\b", target, expr)`: whole-token replacement. -/
def subWholeTokenGo (fuel : Nat) (src repl : List Char) (prev : Option Char) :
    List Char → List Char
  | [] => []
  | c :: cs =>
    match fuel with
    | 0 => c :: cs
    | f + 1 =>
      let boundary :=
        match prev with
        | none => true
        | some p => !isWordChar p
      let rest := (c :: cs).drop src.length
      let afterOk :=
        match rest with
        | [] => true
        | r :: _ => !isWordChar r
      if boundary && src.isPrefixOf (c :: cs) && afterOk then
        repl ++ subWholeTokenGo f src repl src.getLast? rest
      else
        c :: subWholeTokenGo f src repl (some c) cs

/-- `_replace_identifier(expression, source, target)`. -/
def replaceIdentifier (expression source target : String) : String :=
  if source.isEmpty || target.isEmpty || source == target then expression
  else String.mk (subWholeTokenGo (expression.data.length + 1) source.data target.data none expression.data)

/-- `OP_CALL_RE.findall` scan for `_infer_used_operators`: identifier
tokens followed (after spaces) by `(` (fuel-structural). -/
def opCallTokensGo (fuel : Nat) : List Char → List String
  | [] => []
  | c :: cs =>
    match fuel with
    | 0 => []
    | f + 1 =>
      if isIdentStart c then
        let tok := c :: cs.takeWhile isIdentChar
        let rest := cs.dropWhile isIdentChar
        match rest.dropWhile Char.isWhitespace with
        | '(' :: tl => String.mk tok :: opCallTokensGo f tl
        | _ => opCallTokensGo f rest
      else opCallTokensGo f cs

/-- `OP_CALL_RE.findall(expression)` tokens. -/
def opCallTokens (cs : List Char) : List String :=
  opCallTokensGo (cs.length + 1) cs

/-- `_infer_used_operators(expression)`. -/
def inferUsedOperators (s : String) : List String :=
  uniqueList (opCallTokens s.data)

/-- `_infer_used_fields(expression)`. -/
def inferUsedFields (s : String) : List String :=
  let ops := inferUsedOperators s
  let blacklist := ops ++ ["if", "else", "and", "or", "not", "true", "false", "null"]
  uniqueList ((findIdents s.data).filter fun t => !blacklist.contains t)

/-- `ValidationGate._fallback_field_from_validator`: iterate the
`field_types` dict (keys in first-insertion order, values from the last
duplicate row). -/
def fieldDictKeys (rows : List FieldRow) : List String :=
  uniqueList ((rows.filter fun r => r.id ≠ "").map FieldRow.id)

/-- `ValidationGate._fallback_field_from_validator(preferred_type=...)`. -/
def fallbackFieldFromValidator (sv : StaticValidator) (preferred : Option String) : Option String :=
  let keys := fieldDictKeys sv.fields
  let fromPref :=
    match preferred with
    | some p => keys.find? fun k => ((fieldTypeOf sv k).getD "") == pyUpper p
    | none => none
  match fromPref with
  | some k => some k
  | none => keys.head?

/-- `ValidationGate._pick_field_id(pack, preferred_type=...)`. -/
def pickFieldId (sv : StaticValidator) (pack : RetrievalPack) (preferred : Option String) : Option String :=
  let fromPref :=
    match preferred with
    | some p => (pack.candidate_fields.find? fun f => pyUpper f.ftype == pyUpper p).map FieldCandidate.id
    | none => none
  match fromPref with
  | some fid => some fid
  | none =>
    match pack.candidate_fields with
    | f :: _ => some f.id
    | [] => fallbackFieldFromValidator sv preferred

/-- Dict-key order of `validator.operators` / `operator_scopes`. -/
def operatorDictKeys (rows : List OperatorRow) : List String :=
  uniqueList ((rows.filter fun r => r.name ≠ "").map OperatorRow.name)

/-- `ValidationGate._pick_regular_operator(pack, exclude=...)`. -/
def pickRegularOperator (sv : StaticValidator) (pack : RetrievalPack) (exclude : List String) : Option String :=
  let preferred := ["rank", "zscore", "ts_delta", "ts_mean", "ts_stddev"]
  let candidates := (pack.candidate_operators.filter fun op =>
    let name := op.name
    let scopes := op.scope.map pyUpper
    !name.isEmpty && !exclude.contains name &&
      (scopes.isEmpty || scopes.contains "REGULAR")).map OperatorCandidate.name
  match preferred.find? (fun name => candidates.contains name) with
  | some name => some name
  | none =>
    match candidates with
    | name :: _ => some name
    | [] =>
      let fromValidatorPreferred := preferred.find? fun name =>
        (lookupOperatorRow sv.operators name).isSome &&
          (let scope := operatorScopes sv name
           scope.isEmpty || scope.contains "REGULAR")
      match fromValidatorPreferred with
      | some name => some name
      | none =>
        (operatorDictKeys sv.operators).find? fun name =>
          !exclude.contains name &&
            (let upper := operatorScopes sv name
             upper.isEmpty || upper.contains "REGULAR")

/-- Pack operator-name set `{str(item.name) for item in ... if item.name}`. -/
def packOperatorNames (pack : RetrievalPack) : List String :=
  (pack.candidate_operators.map OperatorCandidate.name).filter fun n => !n.isEmpty

/-- The first template loop of `_synthesize_expression`: skip templates
whose required operators are not all in the pack, return the first
validating one. -/
def firstPackTemplate (sv : StaticValidator) (ops : List String) :
    List (String × List String) → Option String
  | [] => none
  | (expr, req) :: rest =>
    if !req.isEmpty && !(req.all fun o => ops.contains o) then firstPackTemplate sv ops rest
    else if (validate sv expr "REGULAR").is_valid then some expr
    else firstPackTemplate sv ops rest

/-- The second template loop of `_synthesize_expression`: only the
validator gates acceptance. -/
def firstValidTemplate (sv : StaticValidator) :
    List (String × List String) → Option String
  | [] => none
  | (expr, _) :: rest =>
    if (validate sv expr "REGULAR").is_valid then some expr
    else firstValidTemplate sv rest

/-- The synthesis template list for a chosen `any_field` (and the
`group_rank` template when both a MATRIX and GROUP field exist). -/
def synthesisTemplates (matrixField groupField : Option String) (anyField : String) :
    List (String × List String) :=
  let base :=
    [ ("rank(ts_delta(" ++ anyField ++ ", 5))", ["rank", "ts_delta"]),
      ("zscore(ts_delta(" ++ anyField ++ ", 5))", ["zscore", "ts_delta"]),
      ("ts_delta(" ++ anyField ++ ", 5)", ["ts_delta"]),
      ("rank(" ++ anyField ++ ")", ["rank"]),
      ("zscore(" ++ anyField ++ ")", ["zscore"]) ]
  match truthyOpt matrixField, truthyOpt groupField with
  | some m, some g => ("group_rank(" ++ m ++ ", " ++ g ++ ")", ["group_rank"]) :: base
  | _, _ => base

/-- The `any_field` choice of `_synthesize_expression`:
`matrix_field or self._pick_field_id(retrieval_pack) or "close"`. -/
def synthAnyField (sv : StaticValidator) (pack : RetrievalPack) : String :=
  truthyOr (pickFieldId sv pack (some "MATRIX")) (truthyOr (pickFieldId sv pack none) "close")

/-- `ValidationGate._synthesize_expression(pack)`. -/
def synthesizeExpression (sv : StaticValidator) (pack : RetrievalPack) : String :=
  let matrixField := pickFieldId sv pack (some "MATRIX")
  let groupField := pickFieldId sv pack (some "GROUP")
  let anyField := synthAnyField sv pack
  let operators := packOperatorNames pack
  let templates := synthesisTemplates matrixField groupField anyField
  match firstPackTemplate sv operators templates with
  | some expr => expr
  | none =>
    match firstValidTemplate sv templates with
    | some expr => expr
    | none =>
      if (validate sv anyField "REGULAR").is_valid then anyField
      else
        match truthyOpt (fallbackFieldFromValidator sv (some "MATRIX")) with
        | some fb =>
          if (validate sv ("rank(" ++ fb ++ ")") "REGULAR").is_valid then "rank(" ++ fb ++ ")"
          else if (validate sv fb "REGULAR").is_valid then fb
          else anyField
        | none => anyField

/-- `ValidationGate._build_group_expression(pack)`. -/
def buildGroupExpression (sv : StaticValidator) (pack : RetrievalPack) : Option String :=
  match truthyOpt (pickFieldId sv pack (some "MATRIX")),
      truthyOpt (pickFieldId sv pack (some "GROUP")) with
  | some m, some g =>
    let available := packOperatorNames pack
    (["group_rank", "group_zscore", "group_mean", "group_neutralize"].filter
      fun op => available.contains op).find?
        (fun op => (validate sv (op ++ "(" ++ m ++ ", " ++ g ++ ")") "REGULAR").is_valid)
      |>.map fun op => op ++ "(" ++ m ++ ", " ++ g ++ ")"
  | _, _ => none

/-- Structural issue codes that force a fresh synthesis in repair. -/
def structuralCodes : List String :=
  ["operator_no_arguments", "operator_empty_argument", "operator_arity_mismatch",
    "unbalanced_parentheses"]

/-- The caller-visible heap of `repair_candidate`: the caller's candidate
object and the deep clone all rewrites are applied to. -/
structure RepairHeap where
  orig : CandidateAlpha
  repaired : CandidateAlpha
deriving DecidableEq

/-- The heuristic expression rewrites of `repair_candidate` (everything
between the deep copy and the final assignment/post-check). -/
def repairExpression (sv : StaticValidator) (pack : RetrievalPack)
    (issues : List ValidationIssue) (expression0 : String) : String :=
  let codes := issues.map ValidationIssue.code
  let errors := issues.map ValidationIssue.message
  let e1 :=
    if (stripString expression0).isEmpty || codes.contains "empty_expression" then
      synthesizeExpression sv pack
    else expression0
  let e2 :=
    if codes.contains "unsupported_characters" then String.mk (e1.data.filter allowedChar)
    else e1
  let unknownOperators := extractAll UNKNOWN_OPERATOR_PAT errors
  let e3 :=
    if !unknownOperators.isEmpty then
      match truthyOpt (pickRegularOperator sv pack unknownOperators) with
      | some replacement => unknownOperators.foldl (fun e u => subOpCall u replacement e) e2
      | none => e2
    else e2
  let scopeOps := extractAll SCOPE_VIOLATION_PAT errors
  let e4 :=
    if !scopeOps.isEmpty then
      match truthyOpt (pickRegularOperator sv pack scopeOps) with
      | some replacement => scopeOps.foldl (fun e op => subOpCall op replacement e) e3
      | none => e3
    else e3
  let unknownFields := extractAll UNKNOWN_FIELD_PAT errors
  let e5 :=
    if !unknownFields.isEmpty then
      match truthyOpt (pickFieldId sv pack (some "MATRIX")) with
      | some replacement => unknownFields.foldl (fun e fid => replaceIdentifier e fid replacement) e4
      | none => e4
    else e4
  let tsBadFields := extractAll TS_NON_MATRIX_PAT errors
  let e6 :=
    if !tsBadFields.isEmpty then
      match truthyOpt (pickFieldId sv pack (some "MATRIX")) with
      | some matrixField => tsBadFields.foldl (fun e fid => replaceIdentifier e fid matrixField) e5
      | none => e5
    else e5
  let vectorBadFields := extractAll VECTOR_NON_VEC_PAT errors
  let e7 :=
    if !vectorBadFields.isEmpty then
      match truthyOpt (pickFieldId sv pack (some "MATRIX")) with
      | some matrixField => vectorBadFields.foldl (fun e fid => replaceIdentifier e fid matrixField) e6
      | none => e6
    else e6
  if codes.contains "group_requires_group_and_matrix" then
    truthyOr (buildGroupExpression sv pack) (synthesizeExpression sv pack)
  else if codes.any (fun c => structuralCodes.contains c) then
    synthesizeExpression sv pack
  else e7

/-- `ValidationGate.repair_candidate`: deep-copies the candidate into the
`repaired` slot, applies the heuristic rewrites there, and forces a
synthesized expression if the post-validation still fails. The `orig`
slot is the caller's object, which no statement writes to. -/
def repairCandidateHeap (sv : StaticValidator) (candidate : CandidateAlpha)
    (issues : List ValidationIssue) (pack : RetrievalPack) : RepairHeap :=
  let heap0 : RepairHeap := { orig := candidate, repaired := candidate }
  let expression0 := candidateExpression heap0.repaired
  let expression := repairExpression sv pack issues expression0
  let h1 : RepairHeap :=
    { heap0 with repaired :=
      { heap0.repaired with
        simulation_settings :=
          { heap0.repaired.simulation_settings with regular := some (stripString expression) }
        generation_notes :=
          { heap0.repaired.generation_notes with
            used_fields := inferUsedFields expression
            used_operators := inferUsedOperators expression } } }
  let post := validate sv (truthyOr h1.repaired.simulation_settings.regular "") "REGULAR"
  if !post.is_valid then
    let synth := synthesizeExpression sv pack
    { h1 with repaired :=
      { h1.repaired with
        simulation_settings :=
          { h1.repaired.simulation_settings with regular := some synth }
        generation_notes :=
          { h1.repaired.generation_notes with
            used_fields := inferUsedFields (truthyOr (some synth) "")
            used_operators := inferUsedOperators (truthyOr (some synth) "") } } }
  else h1

/-- `ValidationGate.repair_candidate(...)`: the returned clone. -/
def repairCandidate (sv : StaticValidator) (candidate : CandidateAlpha)
    (issues : List ValidationIssue) (pack : RetrievalPack) : CandidateAlpha :=
  (repairCandidateHeap sv candidate issues pack).repaired

/-- `LLMBudgetConfig` (ratios renamed `exploitRatio`/`exploreRatio`). -/
structure LLMBudgetConfig where
  max_prompt_tokens : Int := 12000
  max_completion_tokens : Int := 1600
  max_tokens_per_batch : Int := 52000
  max_tokens_per_day : Int := 1500000
  fallback_topk_steps : List ℚ := [17/20, 7/10, 11/20, 2/5]
  exploitRatio : ℚ := 7/10
  exploreRatio : ℚ := 3/10
  min_explore_candidates_per_batch : Int := 1
  expansion_reserve_tokens : Int := 2500
  estimated_cost_per_1k_prompt_tokens : ℚ := 0
  estimated_cost_per_1k_completion_tokens : ℚ := 0
deriving DecidableEq

/-- `LLMBudgetConfig.normalized_lane_ratio()`. -/
def normalizedLaneRatio (b : LLMBudgetConfig) : ℚ × ℚ :=
  let exploit := max 0 b.exploitRatio
  let explore := max 0 b.exploreRatio
  let total := exploit + explore
  if total ≤ 0 then (7/10, 3/10) else (exploit / total, explore / total)

/-- `UsageSnapshot`. -/
structure UsageSnapshot where
  run_prompt_tokens : Int := 0
  run_completion_tokens : Int := 0
  day_prompt_tokens : Int := 0
  day_completion_tokens : Int := 0
  run_calls : Int := 0
  day_calls : Int := 0
deriving DecidableEq

/-- `UsageSnapshot.total_run_tokens`. -/
def UsageSnapshot.total_run_tokens (u : UsageSnapshot) : Int :=
  u.run_prompt_tokens + u.run_completion_tokens

/-- `UsageSnapshot.total_day_tokens`. -/
def UsageSnapshot.total_day_tokens (u : UsageSnapshot) : Int :=
  u.day_prompt_tokens + u.day_completion_tokens

/-- `rough_token_estimate` on a character count: `ceil(chars / 4)`. -/
def roughTokenEstimateChars (chars : Nat) : Int :=
  Int.ofNat ((chars + 3) / 4)

/-- `rough_token_estimate(text)`. -/
def roughTokenEstimate (s : String) : Int :=
  roughTokenEstimateChars s.length

/-- `estimate_cost_usd`. -/
def estimateCostUsd (promptTokens completionTokens : Int) (b : LLMBudgetConfig) : ℚ :=
  ((max 0 promptTokens : Int) : ℚ) / 1000 * max 0 b.estimated_cost_per_1k_prompt_tokens +
    ((max 0 completionTokens : Int) : ℚ) / 1000 * max 0 b.estimated_cost_per_1k_completion_tokens

/-- Python `round(q)`: round-half-to-even on the embedded rational. -/
def pyRound (q : ℚ) : Int :=
  let f := ⌊q⌋
  let r := q - (f : ℚ)
  if r < 1/2 then f
  else if r > 1/2 then f + 1
  else if Even f then f else f + 1

/-- Python `round(q, 4)`. -/
def pyRound4 (q : ℚ) : ℚ :=
  (pyRound (q * 10000) : ℚ) / 10000

/-- The `exceeded` map of a budget evaluation. -/
structure ExceededMap where
  request_prompt : Bool
  request_completion : Bool
  batch_total : Bool
  day_total : Bool
  explore_floor : Bool
deriving DecidableEq

/-- The `lane_ratio` payload of `_lane_ratio`. -/
structure LaneRatioInfo where
  exploitRatio : ℚ
  exploreRatio : ℚ
  exploit_count : Nat
  explore_count : Nat
  fields_exploit : Nat
  fields_explore : Nat
  operators_exploit : Nat
  operators_explore : Nat
deriving DecidableEq

/-- `BudgetEvaluation`. -/
structure BudgetEvaluation where
  passed : Bool
  prompt_tokens_rough : Int
  completion_tokens_budget : Int
  projected_batch_tokens : Int
  projected_day_tokens : Int
  selected_topk : CandidateCounts
  lane_ratio : LaneRatioInfo
  coverage_kpi : ℚ
  novelty_kpi : ℚ
  combo_sample : List String
  explore_floor_preserved : Bool
  exceeded : ExceededMap
  fallback_count : Nat
  estimated_request_cost_usd : ℚ
deriving DecidableEq

/-- `_pack_counts` / the `selected_topk` dict. -/
def packCounts (pack : RetrievalPack) : CandidateCounts :=
  { subcategories := pack.selected_subcategories.length,
    datasets := pack.candidate_datasets.length,
    fields := pack.candidate_fields.length,
    operators := pack.candidate_operators.length }

/-- `_lane_ratio(pack)`. -/
def laneRatio (pack : RetrievalPack) : LaneRatioInfo :=
  let exploitFields := (pack.candidate_fields.filter fun r => r.lane == "exploit").length
  let exploreFields := (pack.candidate_fields.filter fun r => r.lane == "explore").length
  let exploitOps := (pack.candidate_operators.filter fun r => r.lane == "exploit").length
  let exploreOps := (pack.candidate_operators.filter fun r => r.lane == "explore").length
  let exploitTotal := exploitFields + exploitOps
  let exploreTotal := exploreFields + exploreOps
  let total := max 1 (exploitTotal + exploreTotal)
  { exploitRatio := pyRound4 ((exploitTotal : ℚ) / (total : ℚ)),
    exploreRatio := pyRound4 ((exploreTotal : ℚ) / (total : ℚ)),
    exploit_count := exploitTotal,
    explore_count := exploreTotal,
    fields_exploit := exploitFields,
    fields_explore := exploreFields,
    operators_exploit := exploitOps,
    operators_explore := exploreOps }

/-- `_ordered_unique(values)`: stable de-duplication that also drops
falsy (empty) strings. -/
def orderedUniqueAux : List String → List String → List String
  | [], _ => []
  | x :: xs, seen =>
    if x.isEmpty || seen.contains x then orderedUniqueAux xs seen
    else x :: orderedUniqueAux xs (x :: seen)

/-- `_ordered_unique(values)`. -/
def orderedUnique (xs : List String) : List String :=
  orderedUniqueAux xs []

/-- `_novelty_kpi(pack, seen_combo_keys)`. -/
def noveltyKpi (pack : RetrievalPack) (seenComboKeys : List String) : ℚ × List String :=
  let fieldIds := (pack.candidate_fields.take 20).map FieldCandidate.id
  let operatorNames := (pack.candidate_operators.take 20).map OperatorCandidate.name
  let combos := fieldIds.flatMap fun fid => operatorNames.map fun op => fid ++ "::" ++ op
  if combos.isEmpty then (0, [])
  else
    let uniqueCombos := orderedUnique combos
    let newCount := (uniqueCombos.filter fun key => !seenComboKeys.contains key).length
    let novelty := (newCount : ℚ) / (max 1 uniqueCombos.length : ℚ)
    (pyRound4 novelty, uniqueCombos.take 64)

/-- `_explore_floor_targets(pack, budget)`. -/
def exploreFloorTargets (pack : RetrievalPack) (b : LLMBudgetConfig) : Int × Int :=
  let floorCount := max 0 b.min_explore_candidates_per_batch
  if floorCount ≤ 0 then (0, 0)
  else
    let exploreFields := (pack.candidate_fields.filter fun r => r.lane == "explore").length
    let exploreOps := (pack.candidate_operators.filter fun r => r.lane == "explore").length
    (min floorCount (exploreFields : Int), min floorCount (exploreOps : Int))

/-- `_explore_floor_preserved(pack, targets)`. -/
def exploreFloorPreserved (pack : RetrievalPack) (targets : Int × Int) : Bool :=
  let exploreFields := (pack.candidate_fields.filter fun r => r.lane == "explore").length
  let exploreOps := (pack.candidate_operators.filter fun r => r.lane == "explore").length
  (exploreFields : Int) ≥ max 0 targets.1 && (exploreOps : Int) ≥ max 0 targets.2

/-- `_evaluate_budget(...)`. -/
def evaluateBudget (prompt : String) (pack : RetrievalPack) (b : LLMBudgetConfig)
    (usage : UsageSnapshot) (seenComboKeys : List String) (maxOutputTokens : Int)
    (fallbackCount : Nat) (exploreFloorTgts : Int × Int) : BudgetEvaluation :=
  let promptTokens := roughTokenEstimate prompt
  let completionBudget := max 1 (min maxOutputTokens b.max_completion_tokens)
  let projectedBatch := usage.total_run_tokens + promptTokens + completionBudget
  let projectedDay := usage.total_day_tokens + promptTokens + completionBudget
  let selectedTopk := packCounts pack
  let laneRatioInfo := laneRatio pack
  let coverageKpi : ℚ := ((uniqueList pack.selected_subcategories).length : ℚ)
  let noveltyPair := noveltyKpi pack seenComboKeys
  let exploreFloor := exploreFloorPreserved pack exploreFloorTgts
  let exceeded : ExceededMap :=
    { request_prompt := promptTokens > b.max_prompt_tokens,
      request_completion := completionBudget > b.max_completion_tokens,
      batch_total := projectedBatch > b.max_tokens_per_batch,
      day_total := projectedDay > b.max_tokens_per_day,
      explore_floor := !exploreFloor }
  let passed := !(exceeded.request_prompt || exceeded.request_completion ||
    exceeded.batch_total || exceeded.day_total || exceeded.explore_floor)
  { passed := passed,
    prompt_tokens_rough := promptTokens,
    completion_tokens_budget := completionBudget,
    projected_batch_tokens := projectedBatch,
    projected_day_tokens := projectedDay,
    selected_topk := selectedTopk,
    lane_ratio := laneRatioInfo,
    coverage_kpi := coverageKpi,
    novelty_kpi := noveltyPair.1,
    combo_sample := noveltyPair.2,
    explore_floor_preserved := exploreFloor,
    exceeded := exceeded,
    fallback_count := fallbackCount,
    estimated_request_cost_usd := estimateCostUsd promptTokens completionBudget b }

/-- `_target_total(current_total, factor, min_total)`. -/
def targetTotal (currentTotal : Nat) (factor : ℚ) (minTotal : Nat) : Nat :=
  if currentTotal ≤ minTotal then currentTotal
  else
    let target : Int := max (minTotal : Int) ⌊(currentTotal : ℚ) * factor⌋
    if target ≥ (currentTotal : Int) then max minTotal (currentTotal - 1)
    else target.toNat

/-- The final `while exploit_target + explore_target < target_total` fill
loop of `_allocate_lane_counts` (exploit first, then explore). -/
def allocFill (fuel : Nat) (et xt ea xa target : Nat) : Nat × Nat :=
  match fuel with
  | 0 => (et, xt)
  | f + 1 =>
    if et + xt < target then
      if et < ea then allocFill f (et + 1) xt ea xa target
      else if xt < xa then allocFill f et (xt + 1) ea xa target
      else (et, xt)
    else (et, xt)

/-- `_allocate_lane_counts(...)`. -/
def allocateLaneCounts (target : Nat) (exploitAvail exploreAvail : Nat)
    (exploreRatio : ℚ) (minExplore : Int) : Nat × Nat :=
  if target = 0 then (0, 0)
  else
    let me := (max 0 minExplore).toNat
    if exploitAvail + exploreAvail ≤ target then (exploitAvail, exploreAvail)
    else
      let exploreTarget0 := (pyRound ((target : ℚ) * max 0 exploreRatio)).toNat
      let exploreTarget1 :=
        if exploreAvail > 0 && me > 0 then max exploreTarget0 (min me target) else exploreTarget0
      let exploreTarget2 := min (min exploreTarget1 exploreAvail) target
      let exploitTarget0 := min exploitAvail (target - exploreTarget2)
      let (exploitTarget1, exploreTarget3) :=
        if exploitAvail > 0 && exploitTarget0 = 0 then (1, target - 1)
        else (exploitTarget0, exploreTarget2)
      allocFill (target + 1) exploitTarget1 exploreTarget3 exploitAvail exploreAvail target

/-- The keep-and-break loop of `_trim_field_candidates` (the keep sets are
de-duplicated id sets, discarded as they are consumed). -/
def trimFieldLoop : List FieldCandidate → List String → List String → Nat →
    List FieldCandidate → List FieldCandidate
  | [], _, _, _, acc => acc
  | row :: rest, keepExploit, keepExplore, target, acc =>
    let next :=
      if row.lane == "exploit" && keepExploit.contains row.id then
        (acc ++ [row], keepExploit.erase row.id, keepExplore)
      else if row.lane == "explore" && keepExplore.contains row.id then
        (acc ++ [row], keepExploit, keepExplore.erase row.id)
      else (acc, keepExploit, keepExplore)
    if next.1.length ≥ target then next.1
    else trimFieldLoop rest next.2.1 next.2.2 target next.1

/-- `_trim_field_candidates(rows, target_total, budget)`. -/
def trimFieldCandidates (rows : List FieldCandidate) (target : Nat) (b : LLMBudgetConfig) :
    List FieldCandidate :=
  if target ≥ rows.length then rows
  else
    let exploit := rows.filter fun r => r.lane == "exploit"
    let explore := rows.filter fun r => r.lane == "explore"
    let alloc := allocateLaneCounts target exploit.length explore.length
      (normalizedLaneRatio b).2 (min b.min_explore_candidates_per_batch (target : Int))
    let keepExploit := uniqueList ((exploit.take alloc.1).map FieldCandidate.id)
    let keepExplore := uniqueList ((explore.take alloc.2).map FieldCandidate.id)
    trimFieldLoop rows keepExploit keepExplore target []

/-- The keep-and-break loop of `_trim_operator_candidates`. -/
def trimOperatorLoop : List OperatorCandidate → List String → List String → Nat →
    List OperatorCandidate → List OperatorCandidate
  | [], _, _, _, acc => acc
  | row :: rest, keepExploit, keepExplore, target, acc =>
    let next :=
      if row.lane == "exploit" && keepExploit.contains row.name then
        (acc ++ [row], keepExploit.erase row.name, keepExplore)
      else if row.lane == "explore" && keepExplore.contains row.name then
        (acc ++ [row], keepExploit, keepExplore.erase row.name)
      else (acc, keepExploit, keepExplore)
    if next.1.length ≥ target then next.1
    else trimOperatorLoop rest next.2.1 next.2.2 target next.1

/-- `_trim_operator_candidates(rows, target_total, budget)`. -/
def trimOperatorCandidates (rows : List OperatorCandidate) (target : Nat) (b : LLMBudgetConfig) :
    List OperatorCandidate :=
  if target ≥ rows.length then rows
  else
    let exploit := rows.filter fun r => r.lane == "exploit"
    let explore := rows.filter fun r => r.lane == "explore"
    let alloc := allocateLaneCounts target exploit.length explore.length
      (normalizedLaneRatio b).2 (min b.min_explore_candidates_per_batch (target : Int))
    let keepExploit := uniqueList ((exploit.take alloc.1).map OperatorCandidate.name)
    let keepExplore := uniqueList ((explore.take alloc.2).map OperatorCandidate.name)
    trimOperatorLoop rows keepExploit keepExplore target []

/-- `_shrink_fields(pack, factor, budget)`. -/
def shrinkFields (pack : RetrievalPack) (factor : ℚ) (b : LLMBudgetConfig) : RetrievalPack :=
  if pack.candidate_fields.length ≤ 1 then pack
  else
    let target := targetTotal pack.candidate_fields.length factor 1
    { pack with candidate_fields := trimFieldCandidates pack.candidate_fields target b }

/-- `_shrink_operators(pack, factor, budget)`. -/
def shrinkOperators (pack : RetrievalPack) (factor : ℚ) (b : LLMBudgetConfig) : RetrievalPack :=
  if pack.candidate_operators.length ≤ 1 then pack
  else
    let target := targetTotal pack.candidate_operators.length factor 1
    { pack with candidate_operators := trimOperatorCandidates pack.candidate_operators target b }

/-- The top-up loop of `_shrink_subcategories`: append surviving
subcategories from the current selection until the target is reached. -/
def fillKeep : List String → List String → Nat → List String
  | [], keep, _ => keep
  | s :: rest, keep, target =>
    if keep.contains s then fillKeep rest keep target
    else
      let keep' := keep ++ [s]
      if keep'.length ≥ target then keep' else fillKeep rest keep' target

/-- `_shrink_subcategories(pack, factor, budget)`. -/
def shrinkSubcategories (pack : RetrievalPack) (factor : ℚ) (b : LLMBudgetConfig) : RetrievalPack :=
  if pack.selected_subcategories.length ≤ 1 then pack
  else
    let target := targetTotal pack.selected_subcategories.length factor 1
    let exploitSubcats := orderedUnique
      ((pack.candidate_datasets.filter fun r => r.lane == "exploit").map DatasetCandidate.subcategory_id)
    let exploreSubcats := orderedUnique
      ((pack.candidate_datasets.filter fun r => r.lane == "explore").map DatasetCandidate.subcategory_id)
    let alloc := allocateLaneCounts target exploitSubcats.length exploreSubcats.length
      (normalizedLaneRatio b).2 (if b.min_explore_candidates_per_batch > 0 then 1 else 0)
    let keep0 := exploitSubcats.take alloc.1 ++ exploreSubcats.take alloc.2
    let keep :=
      if keep0.length < target then fillKeep pack.selected_subcategories keep0 target
      else keep0
    let selected := pack.selected_subcategories.filter fun s => keep.contains s
    let datasets := pack.candidate_datasets.filter fun r => keep.contains r.subcategory_id
    let keepDatasetIds := datasets.map DatasetCandidate.id
    let fields :=
      if !keepDatasetIds.isEmpty then
        pack.candidate_fields.filter fun r => keepDatasetIds.contains r.dataset_id
      else pack.candidate_fields
    { pack with
      selected_subcategories := selected,
      candidate_datasets := datasets,
      candidate_fields := fields }

/-- `_shrink_pack(pack, phase, factor, budget)`. -/
def shrinkPack (pack : RetrievalPack) (phase : String) (factor : ℚ) (b : LLMBudgetConfig) :
    RetrievalPack :=
  if phase == "fields" then shrinkFields pack factor b
  else if phase == "operators" then shrinkOperators pack factor b
  else if phase == "subcategories" then shrinkSubcategories pack factor b
  else pack

/-- Dict `update` on the string-keyed int maps (existing keys keep their
position, new keys are appended). -/
def assocSet (m : List (String × Int)) (k : String) (v : Int) : List (String × Int) :=
  if m.any fun p => p.1 == k then m.map fun p => if p.1 == k then (k, v) else p
  else m ++ [(k, v)]

/-- JSON string escaping as in `json.dumps(..., ensure_ascii=False)`. -/
def jsonEscapeChar (c : Char) : String :=
  if c = '"' then "\\\""
  else if c = '\\' then "\\\\"
  else if c = '\n' then "\\n"
  else if c = '\t' then "\\t"
  else if c = '\r' then "\\r"
  else String.singleton c

/-- JSON rendering of a string. -/
def jsonStr (s : String) : String :=
  "\"" ++ String.join (s.data.map jsonEscapeChar) ++ "\""

/-- JSON rendering of a list of already-rendered values. -/
def jsonArr (xs : List String) : String :=
  "[" ++ joinSep ", " xs ++ "]"

/-- JSON rendering of an object from rendered key/value pairs. -/
def jsonObj (kvs : List (String × String)) : String :=
  "\x7b" ++ joinSep ", " (kvs.map fun kv => jsonStr kv.1 ++ ": " ++ kv.2) ++ "\x7d"

/-- Rendering of the embedded score rationals (models the float rendering
of `json.dumps`; the exact character count of the Python serialization is
not reproduced and no claim depends on it). -/
def jsonRat (q : ℚ) : String :=
  toString q

/-- JSON rendering of an optional string (`None` ↦ `null`). -/
def jsonOptStr (o : Option String) : String :=
  match o with
  | some s => jsonStr s
  | none => "null"

/-- `model_dump` + JSON rendering of a dataset candidate. -/
def jsonDataset (r : DatasetCandidate) : String :=
  jsonObj [("id", jsonStr r.id), ("name", jsonStr r.name),
    ("subcategory_id", jsonStr r.subcategory_id), ("lane", jsonStr r.lane),
    ("score", jsonRat r.score)]

/-- `model_dump` + JSON rendering of a field candidate. -/
def jsonField (r : FieldCandidate) : String :=
  jsonObj [("id", jsonStr r.id), ("dataset_id", jsonStr r.dataset_id),
    ("type", jsonStr r.ftype), ("lane", jsonStr r.lane), ("score", jsonRat r.score)]

/-- `model_dump` + JSON rendering of an operator candidate. -/
def jsonOperator (r : OperatorCandidate) : String :=
  jsonObj [("name", jsonStr r.name), ("definition", jsonOptStr r.defn),
    ("scope", jsonArr (r.scope.map jsonStr)), ("category", jsonOptStr r.category),
    ("lane", jsonStr r.lane), ("score", jsonRat r.score)]

/-- `model_dump` + JSON rendering of a lane selection. -/
def jsonLane (l : LaneSelection) : String :=
  jsonObj [("field_ids", jsonArr (l.field_ids.map jsonStr)),
    ("operator_names", jsonArr (l.operator_names.map jsonStr))]

/-- The `json.dumps(payload, ensure_ascii=False)` serialization inside
`_sync_pack_contracts` (modelled over the embedded pack fields). -/
def serializeSyncPayload (pack : RetrievalPack) : String :=
  jsonObj
    [ ("query", jsonStr pack.query),
      ("selected_subcategories", jsonArr (pack.selected_subcategories.map jsonStr)),
      ("candidate_datasets", jsonArr (pack.candidate_datasets.map jsonDataset)),
      ("candidate_fields", jsonArr (pack.candidate_fields.map jsonField)),
      ("candidate_operators", jsonArr (pack.candidate_operators.map jsonOperator)),
      ("lanes", jsonObj [("exploit", jsonLane pack.lanes_exploit),
        ("explore", jsonLane pack.lanes_explore)]) ]

/-- `_sync_pack_contracts(pack, budget)`. -/
def syncPackContracts (pack : RetrievalPack) (b : LLMBudgetConfig) : RetrievalPack :=
  let exploitFields := (pack.candidate_fields.filter fun r => r.lane == "exploit").map FieldCandidate.id
  let exploreFields := (pack.candidate_fields.filter fun r => r.lane == "explore").map FieldCandidate.id
  let exploitOps := (pack.candidate_operators.filter fun r => r.lane == "exploit").map OperatorCandidate.name
  let exploreOps := (pack.candidate_operators.filter fun r => r.lane == "explore").map OperatorCandidate.name
  let pack := { pack with
    lanes_exploit := ⟨exploitFields, exploitOps⟩,
    lanes_explore := ⟨exploreFields, exploreOps⟩ }
  let datasetSubcats := orderedUnique (pack.candidate_datasets.map DatasetCandidate.subcategory_id)
  let pack :=
    if !datasetSubcats.isEmpty then
      let preferred := pack.selected_subcategories.filter fun v => datasetSubcats.contains v
      let extras := datasetSubcats.filter fun v => !preferred.contains v
      { pack with selected_subcategories := preferred ++ extras }
    else pack
  let counts := packCounts pack
  let pack := { pack with telemetry :=
    { retrieval_ms := max 0 pack.telemetry.retrieval_ms, candidate_counts := counts } }
  let chars := (serializeSyncPayload pack).length
  let pack := { pack with token_estimate :=
    { input_chars := chars, input_tokens_rough := (roughTokenEstimateChars chars).toNat } }
  let maxItems0 := pack.context_guard.max_items
  let maxItems := assocSet (assocSet (assocSet (assocSet maxItems0
    "subcategories" (counts.subcategories : Int))
    "datasets" (counts.datasets : Int))
    "fields" (counts.fields : Int))
    "operators" (counts.operators : Int)
  let pack := { pack with context_guard := { pack.context_guard with max_items := maxItems } }
  { pack with budget_policy := { pack.budget_policy with
      llm_budget := some ⟨b.max_prompt_tokens, b.max_completion_tokens,
        b.max_tokens_per_batch, b.max_tokens_per_day⟩ } }

/-- `_pack_signature(pack)`. -/
def packSignature (pack : RetrievalPack) : List String × List String × List String :=
  (pack.candidate_fields.map FieldCandidate.id,
    pack.candidate_operators.map OperatorCandidate.name,
    pack.selected_subcategories)

/-- One recorded fallback-step dict of `enforce_alpha_prompt_budget`. -/
structure FallbackStep where
  phase : String
  factor : ℚ
  prompt_tokens : Int
  completion_tokens : Int
  selected_topk : CandidateCounts
  budget_exceeded : ExceededMap
  fallback_count : Nat
deriving DecidableEq

/-- `BudgetEnforcementResult`. -/
structure BudgetEnforcementResult where
  allowed : Bool
  pack : RetrievalPack
  prompt : String
  evaluation : BudgetEvaluation
  usage : UsageSnapshot
  fallback_steps : List FallbackStep
deriving DecidableEq

/-- The mutable local state of the fallback loops in
`enforce_alpha_prompt_budget`. -/
structure EnforceState where
  pack : RetrievalPack
  prompt : String
  evaluation : BudgetEvaluation
  fallbackCount : Nat
  steps : List FallbackStep
deriving DecidableEq

/-- The shared context threaded through `enforce_alpha_prompt_budget`. -/
structure EnforceCtx (I K : Type) where
  idea : I
  knowledge : K
  budget : LLMBudgetConfig
  usage : UsageSnapshot
  seenComboKeys : List String
  promptBuilder : I → RetrievalPack → K → String
  maxOutputTokens : Int
  targets : Int × Int

/-- The recorded `fallback_steps` entry. -/
def recordStep (phase : String) (factor : ℚ) (ev : BudgetEvaluation) (fc : Nat) : FallbackStep :=
  { phase := phase, factor := pyRound4 factor, prompt_tokens := ev.prompt_tokens_rough,
    completion_tokens := ev.completion_tokens_budget, selected_topk := ev.selected_topk,
    budget_exceeded := ev.exceeded, fallback_count := fc }

/-- The body of the inner fallback loop: shrink, re-sync, skip when the
pack signature is unchanged, otherwise rebuild the prompt and re-evaluate.
Returns the updated state and whether the new evaluation passed. -/
def enforceStepBody {I K : Type} (ctx : EnforceCtx I K) (phase : String) (factor : ℚ)
    (st : EnforceState) : EnforceState × Bool :=
  let sigBefore := packSignature st.pack
  let pack1 := syncPackContracts (shrinkPack st.pack phase factor ctx.budget) ctx.budget
  if packSignature pack1 = sigBefore then ({ st with pack := pack1 }, false)
  else
    let fc := st.fallbackCount + 1
    let prompt := ctx.promptBuilder ctx.idea pack1 ctx.knowledge
    let ev := evaluateBudget prompt pack1 ctx.budget ctx.usage ctx.seenComboKeys
      ctx.maxOutputTokens fc ctx.targets
    ({ pack := pack1, prompt := prompt, evaluation := ev, fallbackCount := fc,
        steps := st.steps ++ [recordStep phase factor ev fc] }, ev.passed)

/-- The allowed result built at an early `return` inside the loops. -/
def enforceSuccess (usage : UsageSnapshot) (st : EnforceState) : BudgetEnforcementResult :=
  { allowed := true, pack := st.pack, prompt := st.prompt, evaluation := st.evaluation,
    usage := usage, fallback_steps := st.steps }

/-- The blocked result returned after both loops are exhausted. -/
def enforceBlocked (usage : UsageSnapshot) (st : EnforceState) : BudgetEnforcementResult :=
  { allowed := false, pack := st.pack, prompt := st.prompt, evaluation := st.evaluation,
    usage := usage, fallback_steps := st.steps }

/-- The inner `for factor in budget.fallback_topk_steps` loop. -/
def enforceFactors {I K : Type} (ctx : EnforceCtx I K) (phase : String) :
    List ℚ → EnforceState → EnforceState ⊕ BudgetEnforcementResult
  | [], st => Sum.inl st
  | factor :: rest, st =>
    let step := enforceStepBody ctx phase factor st
    if step.2 then Sum.inr (enforceSuccess ctx.usage step.1)
    else enforceFactors ctx phase rest step.1

/-- The outer `for phase in ("fields", "operators", "subcategories")` loop. -/
def enforcePhases {I K : Type} (ctx : EnforceCtx I K) :
    List String → EnforceState → EnforceState ⊕ BudgetEnforcementResult
  | [], st => Sum.inl st
  | phase :: rest, st =>
    match enforceFactors ctx phase ctx.budget.fallback_topk_steps st with
    | Sum.inr result => Sum.inr result
    | Sum.inl st' => enforcePhases ctx rest st'

/-- `enforce_alpha_prompt_budget(...)`. -/
def enforceAlphaPromptBudget {I K : Type} (idea : I) (retrievalPack : RetrievalPack)
    (knowledge : K) (b : LLMBudgetConfig) (usage : UsageSnapshot)
    (seenComboKeys : List String) (promptBuilder : I → RetrievalPack → K → String)
    (maxOutputTokens : Int) : BudgetEnforcementResult :=
  let targets := exploreFloorTargets retrievalPack b
  let workingPack := syncPackContracts retrievalPack b
  let prompt := promptBuilder idea workingPack knowledge
  let ev := evaluateBudget prompt workingPack b usage seenComboKeys maxOutputTokens 0 targets
  if ev.passed then
    { allowed := true, pack := workingPack, prompt := prompt, evaluation := ev,
      usage := usage, fallback_steps := [] }
  else
    let ctx : EnforceCtx I K :=
      { idea := idea, knowledge := knowledge, budget := b, usage := usage,
        seenComboKeys := seenComboKeys, promptBuilder := promptBuilder,
        maxOutputTokens := maxOutputTokens, targets := targets }
    Sum.elim (enforceBlocked usage) (fun result => result)
      (enforcePhases ctx ["fields", "operators", "subcategories"]
        ⟨workingPack, prompt, ev, 0, []⟩)

/-- Modelled from the spec (§4.2): the flattened shrink schedule —
phases in the fixed order fields → operators → subcategories, and within
each phase the configured retention factors in their configured order. -/
def specShrinkSchedule (b : LLMBudgetConfig) : List (String × ℚ) :=
  ["fields", "operators", "subcategories"].flatMap fun phase =>
    b.fallback_topk_steps.map fun factor => (phase, factor)

/-- Modelled from the spec (§4.2): one pass over the flattened schedule —
skip a step whose shrink leaves the pack signature unchanged (recording no
fallback step and running no evaluation), stop with success on the first
passing evaluation, and return `allowed := false` with the accumulated
steps and final evaluation when the schedule is exhausted. -/
def specEnforceLoop {I K : Type} (ctx : EnforceCtx I K) :
    List (String × ℚ) → EnforceState → BudgetEnforcementResult
  | [], st => enforceBlocked ctx.usage st
  | (phase, factor) :: rest, st =>
    let pack1 := syncPackContracts (shrinkPack st.pack phase factor ctx.budget) ctx.budget
    if packSignature pack1 = packSignature st.pack then
      specEnforceLoop ctx rest { st with pack := pack1 }
    else
      let fc := st.fallbackCount + 1
      let prompt := ctx.promptBuilder ctx.idea pack1 ctx.knowledge
      let ev := evaluateBudget prompt pack1 ctx.budget ctx.usage ctx.seenComboKeys
        ctx.maxOutputTokens fc ctx.targets
      let st' : EnforceState :=
        ⟨pack1, prompt, ev, fc, st.steps ++ [recordStep phase factor ev fc]⟩
      if ev.passed then enforceSuccess ctx.usage st'
      else specEnforceLoop ctx rest st'

/-- Modelled from the spec (§4.2): budget enforcement as one initial
evaluation followed by the flattened shrink schedule. -/
def specEnforceAlphaPromptBudget {I K : Type} (idea : I) (retrievalPack : RetrievalPack)
    (knowledge : K) (b : LLMBudgetConfig) (usage : UsageSnapshot)
    (seenComboKeys : List String) (promptBuilder : I → RetrievalPack → K → String)
    (maxOutputTokens : Int) : BudgetEnforcementResult :=
  let targets := exploreFloorTargets retrievalPack b
  let workingPack := syncPackContracts retrievalPack b
  let prompt := promptBuilder idea workingPack knowledge
  let ev := evaluateBudget prompt workingPack b usage seenComboKeys maxOutputTokens 0 targets
  if ev.passed then
    { allowed := true, pack := workingPack, prompt := prompt, evaluation := ev,
      usage := usage, fallback_steps := [] }
  else
    let ctx : EnforceCtx I K :=
      { idea := idea, knowledge := knowledge, budget := b, usage := usage,
        seenComboKeys := seenComboKeys, promptBuilder := promptBuilder,
        maxOutputTokens := maxOutputTokens, targets := targets }
    specEnforceLoop ctx (specShrinkSchedule b) ⟨workingPack, prompt, ev, 0, []⟩

/-- `_repair_rulebook(error_codes)`. -/
def repairRulebook (errorCodes : List String) : List String :=
  let rules :=
    (if errorCodes.any (fun c => c == "unknown_operator" || c == "unknown_data_field") then
      ["retrieval pack 후보(operator/field)로 우선 치환"] else [])
    ++ (if errorCodes.contains "operator_scope_violation" then
      ["REGULAR scope 허용 연산자로 교체"] else [])
    ++ (if errorCodes.any (fun c => c == "ts_non_matrix_input" ||
          c == "group_requires_group_and_matrix" || c == "vector_used_in_non_vec") then
      ["ts_/group_/vec_ 타입 규칙에 맞게 필드 조합 재배치"] else [])
    ++ (if errorCodes.any (fun c => structuralCodes.contains c) then
      ["구조(괄호/인자)를 다시 생성하는 포맷 복구 우선"] else [])
  if rules.isEmpty then ["오류 메시지의 핵심 토큰을 기준으로 식을 단순화"] else rules

/-- The dict built by `ValidationGate.build_repair_instruction`. -/
structure RepairInstruction where
  attempt : Nat
  error_codes : List String
  errors : List String
  repeated_error_count : Nat
  expanded_retrieval : Bool
  candidate_lane : String
  rulebook : List String
  available_fields : Nat
  available_operators : Nat
  available_subcategories : Nat
deriving DecidableEq

/-- `ValidationGate.build_repair_instruction(...)`. -/
def buildRepairInstruction (candidate : CandidateAlpha) (issues : List ValidationIssue)
    (pack : RetrievalPack) (attempt : Nat) (repeatCount : Nat) (expanded : Bool) :
    RepairInstruction :=
  { attempt := attempt,
    error_codes := issues.map ValidationIssue.code,
    errors := issues.map ValidationIssue.message,
    repeated_error_count := repeatCount,
    expanded_retrieval := expanded,
    candidate_lane := candidate.generation_notes.candidate_lane,
    rulebook := repairRulebook (issues.map ValidationIssue.code),
    available_fields := pack.candidate_fields.length,
    available_operators := pack.candidate_operators.length,
    available_subcategories := pack.selected_subcategories.length }

/-- `_repeat_streak(history, signature)`. -/
def repeatStreak (history : List String) (signature : String) : Nat :=
  if signature.isEmpty then 0
  else (history.reverse.takeWhile fun item => item == signature).length

/-- `_expansion_enabled(pack)`. -/
def expansionEnabled (pack : RetrievalPack) : Bool :=
  pack.expansion_policy.enabled

/-- `_expansion_threshold(pack)`. -/
def expansionThreshold (pack : RetrievalPack) : Int :=
  max 1 pack.expansion_policy.trigger_on_repeated_validation_error

/-- `_expansion_factor(pack)`. -/
def expansionFactor (pack : RetrievalPack) : ℚ :=
  max 1 pack.expansion_policy.topk_expand_factor

/-- `_scaled_count(value, factor)`. -/
def scaledCount (value : Int) (factor : ℚ) : Int :=
  let base := max 1 value
  let scaled := pyRound ((base : ℚ) * max 1 factor)
  if scaled ≤ base then base + 1 else scaled

/-- `_lane_budget_from_payload(payload, factor)`. -/
def laneBudgetFromPayload (row : LaneBudgetPayload) (factor : ℚ) : LaneBudgetPayload :=
  { subcategories := scaledCount row.subcategories factor,
    datasets := scaledCount row.datasets factor,
    fields := scaledCount row.fields factor,
    operators := scaledCount row.operators factor }

/-- `RetrievalExpansionPolicy` of the pack builder. -/
structure RetrievalExpansionPolicy where
  enabled : Bool
  trigger_on_repeated_validation_error : Int
  topk_expand_factor : ℚ
deriving DecidableEq

/-- `RetrievalBudgetConfig` of the pack builder. -/
structure RetrievalBudgetConfig where
  exploitRatio : ℚ
  exploreRatio : ℚ
  exploit : LaneBudgetPayload
  explore : LaneBudgetPayload
  expansion_policy : RetrievalExpansionPolicy
deriving DecidableEq

/-- Python `x or d` on a rational payload (`0.0` is falsy). -/
def pyOrQ (q fallback : ℚ) : ℚ :=
  if q = 0 then fallback else q

/-- The expanded `RetrievalBudgetConfig` built inside
`_expand_retrieval_pack` (the rebuild itself goes through the abstract
`build_retrieval_pack` collaborator). -/
def expandedBudgetConfig (pack : RetrievalPack) : RetrievalBudgetConfig :=
  let factor := expansionFactor pack
  { exploitRatio := pyOrQ pack.budget_policy.exploitRatio (7/10),
    exploreRatio := pyOrQ pack.budget_policy.exploreRatio (3/10),
    exploit := laneBudgetFromPayload pack.budget_policy.exploit factor,
    explore := laneBudgetFromPayload pack.budget_policy.explore factor,
    expansion_policy :=
      { enabled := expansionEnabled pack,
        trigger_on_repeated_validation_error := expansionThreshold pack,
        topk_expand_factor := factor } }

/-- The loop-relevant events published by `ValidationLoopOrchestrator.run`,
with their payload fields. -/
inductive LoopEvent where
  | validationStarted (maxRepairAttempts : Nat) (stopOnRepeatedError : Bool) (candidateLane : String)
  | validationPassed (attempt : Nat)
  | retryPassed (attempt : Nat)
  | validationFailed (attempt : Nat) (errorCodes : List String) (repeatCount : Nat)
  | retryFailed (attempt : Nat) (errorCodes : List String) (repeatCount : Nat)
  | retrievalExpanded (attempt : Nat) (repeatCount : Nat) (threshold : Int)
      (topkBefore topkAfter : CandidateCounts)
  | retryAborted (attempt : Nat) (repeatCount : Nat) (threshold : Int) (errorCodes : List String)
  | retryStarted (attempt : Nat) (instruction : RepairInstruction)
deriving DecidableEq

/-- Whether an event is the `validation.retrieval_expanded` event. -/
def LoopEvent.isExpansion : LoopEvent → Bool
  | .retrievalExpanded _ _ _ _ _ => true
  | _ => false

/-- Discipline of a `validation.retrieval_expanded` event relative to the
run's initial pack: its recorded repeat count reached its recorded
threshold, that threshold is the initial pack's configured trigger
threshold, and the initial pack's expansion policy is enabled. Events of
any other kind satisfy the predicate trivially. -/
def expansionEventOk (pack : RetrievalPack) : LoopEvent → Bool
  | .retrievalExpanded _ repeatCount threshold _ _ =>
      decide (threshold ≤ (repeatCount : Int)) &&
        decide (threshold = expansionThreshold pack) && expansionEnabled pack
  | _ => true

/-- The mutable local state of the `while True` loop in
`ValidationLoopOrchestrator.run` (plus the published event trace). -/
structure LoopState where
  candidate : CandidateAlpha
  pack : RetrievalPack
  attempts : Nat
  signatures : List String
  retrievalExpanded : Bool
  events : List LoopEvent
deriving DecidableEq

/-- What the validation phase of `run` produces: the final candidate and
pack, the loop counters and the published event trace. -/
structure LoopOutcome where
  candidate : CandidateAlpha
  pack : RetrievalPack
  attempts : Nat
  errorCodes : List String
  retrievalExpanded : Bool
  validationPassed : Bool
  events : List LoopEvent
deriving DecidableEq

/-- The `while True` validation/repair loop of
`ValidationLoopOrchestrator.run` (lines 113–222). `rebuild` abstracts the
store-backed `build_retrieval_pack` call of `_expand_retrieval_pack`. -/
def runLoopGo (sv : StaticValidator) (maxAttempts : Nat) (stopOnRepeated : Bool)
    (rebuild : RetrievalBudgetConfig → RetrievalPack) (st : LoopState) : LoopOutcome :=
  let gateResult := validateCandidate sv st.candidate
  let signature := gateResult.error_signature
  let repeatCount := repeatStreak st.signatures signature +
    (if signature == "VALID" then 0 else 1)
  let errorCodes := gateResult.issues.map ValidationIssue.code
  if gateResult.is_valid then
    let ev := if st.attempts = 0 then LoopEvent.validationPassed st.attempts
      else LoopEvent.retryPassed st.attempts
    ⟨st.candidate, st.pack, st.attempts, errorCodes, st.retrievalExpanded, true,
      st.events ++ [ev]⟩
  else
    let ev := if st.attempts = 0 then LoopEvent.validationFailed st.attempts errorCodes repeatCount
      else LoopEvent.retryFailed st.attempts errorCodes repeatCount
    let events1 := st.events ++ [ev]
    let signatures1 := st.signatures ++ [signature]
    if h : st.attempts ≥ maxAttempts then
      ⟨st.candidate, st.pack, st.attempts, errorCodes, st.retrievalExpanded, false, events1⟩
    else
      let attempts1 := st.attempts + 1
      let threshold := expansionThreshold st.pack
      if !st.retrievalExpanded && expansionEnabled st.pack && (repeatCount : Int) ≥ threshold then
        let oldCounts := packCounts st.pack
        let newPack := rebuild (expandedBudgetConfig st.pack)
        let newCounts := packCounts newPack
        let events2 := events1 ++
          [LoopEvent.retrievalExpanded attempts1 repeatCount threshold oldCounts newCounts]
        let instruction := buildRepairInstruction st.candidate gateResult.issues newPack
          attempts1 repeatCount true
        let events3 := events2 ++ [LoopEvent.retryStarted attempts1 instruction]
        runLoopGo sv maxAttempts stopOnRepeated rebuild
          ⟨repairCandidate sv st.candidate gateResult.issues newPack, newPack,
            attempts1, signatures1, true, events3⟩
      else if stopOnRepeated && (repeatCount : Int) ≥ threshold then
        ⟨st.candidate, st.pack, attempts1, errorCodes, st.retrievalExpanded, false,
          events1 ++ [LoopEvent.retryAborted attempts1 repeatCount threshold errorCodes]⟩
      else
        let instruction := buildRepairInstruction st.candidate gateResult.issues st.pack
          attempts1 repeatCount false
        let events2 := events1 ++ [LoopEvent.retryStarted attempts1 instruction]
        runLoopGo sv maxAttempts stopOnRepeated rebuild
          ⟨repairCandidate sv st.candidate gateResult.issues st.pack, st.pack,
            attempts1, signatures1, st.retrievalExpanded, events2⟩
termination_by maxAttempts + 1 - st.attempts
decreasing_by
  · simp only [not_le] at h
    omega
  · simp only [not_le] at h
    omega

/-- The validation phase of `ValidationLoopOrchestrator.run`: the started
event, the repair loop and the post-loop generation-note updates. -/
def runValidationPhase (sv : StaticValidator) (candidate : CandidateAlpha)
    (pack : RetrievalPack) (maxRepairAttempts : Int) (stopOnRepeated : Bool)
    (rebuild : RetrievalBudgetConfig → RetrievalPack) : LoopOutcome :=
  let maxA := (max 0 maxRepairAttempts).toNat
  let st0 : LoopState :=
    { candidate := candidate, pack := pack, attempts := 0, signatures := [],
      retrievalExpanded := false,
      events := [LoopEvent.validationStarted maxA stopOnRepeated
        candidate.generation_notes.candidate_lane] }
  let out := runLoopGo sv maxA stopOnRepeated rebuild st0
  { out with candidate :=
    { out.candidate with generation_notes :=
      { out.candidate.generation_notes with
        validation_passed := out.validationPassed,
        validation_attempts := out.attempts + 1 } } }

/-- One event record as returned by `store.list_event_records_for_run`:
the envelope `event_type` and an optional `event_type` inside the payload. -/
structure EventRecord where
  event_type : String
  payload_event_type : Option String
deriving DecidableEq

/-- `_event_type_from_record(record)`. -/
def eventTypeFromRecord (r : EventRecord) : String :=
  truthyOr r.payload_event_type (truthyOr (some r.event_type) "")

/-- The scan of `_first_index`. -/
def firstIndexGo (fuel : Nat) (events : List String) (keys : List String) (idx : Nat) : Int :=
  match fuel with
  | 0 => -1
  | f + 1 =>
    if h : idx < events.length then
      if keys.contains (events.get ⟨idx, h⟩) then (idx : Int)
      else firstIndexGo f events keys (idx + 1)
    else -1

/-- `_first_index(values, keys, start)` with the `-1` sentinel. -/
def firstIndex (events : List String) (keys : List String) (start : Int) : Int :=
  firstIndexGo (events.length + 1) events keys (max 0 start).toNat

/-- `_retry_order_violation(events)`. -/
def retryOrderViolation (events : List String) : Bool :=
  let retryStarts := (List.range events.length).filter fun i =>
    events.getD i "" == "validation.retry_started"
  retryStarts.any fun idx =>
    let nextRetry := firstIndex events ["validation.retry_started"] ((idx : Int) + 1)
    let endIdx := if nextRetry == -1 then events.length else nextRetry.toNat
    let window := (events.drop (idx + 1)).take (endIdx - (idx + 1))
    !(window.any fun name =>
      name == "validation.retry_failed" || name == "validation.retry_passed")

/-- `ValidationLoopOrchestrator._detect_event_order_violation`. -/
def detectEventOrderViolation (records : List EventRecord) (expectSimulation : Bool) : Bool :=
  let events := records.map eventTypeFromRecord
  if events.isEmpty then true
  else
    let alphaIdx := firstIndex events ["agent.alpha_generated"] 0
    let validationStartIdx := firstIndex events ["validation.started"] 0
    if alphaIdx == -1 || validationStartIdx == -1 || alphaIdx ≥ validationStartIdx then true
    else
      let terminalIdx := firstIndex events ["validation.failed", "validation.passed"]
        (validationStartIdx + 1)
      if terminalIdx == -1 then true
      else if retryOrderViolation events then true
      else
        let validationPassed := events.contains "validation.passed" ||
          events.contains "validation.retry_passed"
        let simulationCompletedIdx := firstIndex events
          ["simulation.completed", "simulation_completed"] 0
        let simulationEnqueuedIdx := firstIndex events ["simulation.enqueued"] 0
        let simulationStartedIdx := firstIndex events ["simulation.started"] 0
        let simulationSkippedIdx := firstIndex events ["simulation_skipped_duplicate"] 0
        let simViolation :=
          if validationPassed && expectSimulation then
            let duplicateOnlyPath := simulationSkippedIdx != -1 &&
              simulationEnqueuedIdx == -1 && simulationStartedIdx == -1 &&
              simulationCompletedIdx == -1
            if !duplicateOnlyPath then
              if simulationEnqueuedIdx == -1 || simulationStartedIdx == -1 then true
              else if simulationEnqueuedIdx ≥ simulationStartedIdx then true
              else if simulationCompletedIdx != -1 &&
                  simulationStartedIdx ≥ simulationCompletedIdx then true
              else false
            else false
          else
            simulationEnqueuedIdx != -1 || simulationStartedIdx != -1 ||
              simulationCompletedIdx != -1
        if simViolation then true
        else
          let evaluationIdx := firstIndex events ["evaluation.completed"] 0
          if evaluationIdx == -1 then true
          else if simulationCompletedIdx != -1 && evaluationIdx ≤ simulationCompletedIdx then true
          else if simulationSkippedIdx != -1 && simulationCompletedIdx == -1 &&
              evaluationIdx ≤ simulationSkippedIdx then true
          else if simulationCompletedIdx == -1 && evaluationIdx ≤ terminalIdx then true
          else false

/-- `_estimate_tokens` of the pack builder, over the character count of the
serialized payload: `max(1, int(chars / 4))`. -/
def estimateTokens (chars : Nat) : RetrievalTokenEstimate :=
  { input_chars := chars, input_tokens_rough := max 1 (chars / 4) }

/-! ### Concrete fixtures used by counterexamples and witnesses -/

/-- A validator knowing `rank`, `ts_delta` and the MATRIX field `close`. -/
def sampleValidator : StaticValidator :=
  { operators := [⟨"rank", [], some 1⟩, ⟨"ts_delta", [], some 2⟩],
    fields := [⟨"close", "MATRIX"⟩],
    safe_regular_only := true }

/-- A validator with empty operator and field catalogs. -/
def emptyValidator : StaticValidator :=
  { operators := [], fields := [], safe_regular_only := true }

/-- A retrieval pack with the given candidate fields and operators and
default surrounding payloads. -/
def mkSamplePack (fs : List FieldCandidate) (ops : List OperatorCandidate) : RetrievalPack :=
  { idea_id := "idea-1", query := "sample query", selected_subcategories := [],
    candidate_datasets := [], candidate_fields := fs, candidate_operators := ops,
    lanes_exploit := ⟨[], []⟩, lanes_explore := ⟨[], []⟩,
    token_estimate := ⟨0, 0⟩,
    budget_policy := ⟨7/10, 3/10, ⟨4, 14, 60, 48⟩, ⟨1, 3, 12, 12⟩, none⟩,
    expansion_policy := ⟨true, 2, 3/2⟩,
    context_guard := ⟨true, [], []⟩,
    telemetry := ⟨0, ⟨0, 0, 0, 0⟩⟩ }

/-- A pack holding only the MATRIX field `close` and no operators. -/
def samplePackCloseOnly : RetrievalPack :=
  mkSamplePack [⟨"close", "d1", "MATRIX", "exploit", 1⟩] []

/-- A pack holding one field `f1` unknown to `emptyValidator`. -/
def samplePackF1 : RetrievalPack :=
  mkSamplePack [⟨"f1", "d1", "MATRIX", "exploit", 1⟩] []

/-- A default-valued LLM budget config. -/
def sampleBudget : LLMBudgetConfig := {}

/-- A candidate whose expression is empty. -/
def sampleCandidateEmpty : CandidateAlpha :=
  { idea_id := "idea-1", alpha_id := none,
    simulation_settings := ⟨"REGULAR", some "", none, none⟩,
    generation_notes := ⟨[], [], "exploit", false, 0⟩ }

/-- A candidate with expression `foo(close)`. -/
def sampleCandidateFoo : CandidateAlpha :=
  { idea_id := "idea-1", alpha_id := none,
    simulation_settings := ⟨"REGULAR", some "foo(close)", none, none⟩,
    generation_notes := ⟨[], [], "exploit", false, 0⟩ }

/-- A candidate with expression `foo(bar(close))`. -/
def sampleCandidateFooBar : CandidateAlpha :=
  { idea_id := "idea-1", alpha_id := none,
    simulation_settings := ⟨"REGULAR", some "foo(bar(close))", none, none⟩,
    generation_notes := ⟨[], [], "exploit", false, 0⟩ }

/-- A candidate with expression `baz(close)`. -/
def sampleCandidateBaz : CandidateAlpha :=
  { idea_id := "idea-1", alpha_id := none,
    simulation_settings := ⟨"REGULAR", some "baz(close)", none, none⟩,
    generation_notes := ⟨[], [], "exploit", false, 0⟩ }

/-! ### C7: pack-builder token estimate -/

/-- C7 counterexample: the claim says the token estimate is the character
length divided by 4 rounded *up*; at 5 serialized characters the code
yields `max(1, int(5/4)) = 1` while the ceiling is 2. -/
theorem estimateTokens_not_ceiling_at_5 :
    ((estimateTokens 5).input_tokens_rough : ℤ) ≠ ⌈(5 : ℚ) / 4⌉ := by
  have h : ⌈(5 : ℚ) / 4⌉ = 2 := by norm_num [Int.ceil_eq_iff]
  rw [h]
  decide

/-- C7 (amended): the pack builder's token estimate records the payload
character count and `max(1, ⌊chars / 4⌋)` — the length divided by 4 rounded
*down* and clamped below at 1. -/
theorem estimateTokens_floor_clamped (chars : Nat) :
    (estimateTokens chars).input_chars = chars ∧
      ((estimateTokens chars).input_tokens_rough : ℤ) = max 1 ⌊(chars : ℚ) / 4⌋ := by
  refine ⟨rfl, ?_⟩
  have hfloor : ⌊(chars : ℚ) / 4⌋ = (chars : ℤ) / 4 := by
    have := Rat.floor_intCast_div_natCast (chars : ℤ) 4
    simpa using this
  rw [hfloor]
  show ((max 1 (chars / 4) : Nat) : ℤ) = max 1 ((chars : ℤ) / 4)
  have : ((chars / 4 : Nat) : ℤ) = (chars : ℤ) / 4 := by
    exact_mod_cast Int.ofNat_ediv chars 4
  omega

/-! ### C8 / C10: budget evaluation -/

/-- C8 counterexample: with 0 requested output tokens, the completion
budget is `max(1, min(0, 1600)) = 1`, not the plain minimum `0` claimed. -/
theorem completion_budget_not_plain_min :
    (evaluateBudget "" samplePackCloseOnly sampleBudget {} [] 0 0 (0, 0)).completion_tokens_budget ≠
      min 0 sampleBudget.max_completion_tokens := by
  decide

/-- C8 (amended): the completion-token budget is
`max(1, min(requested, configured))` — the minimum clamped below at one
token — and the evaluation passes iff none of the five exceeded flags is
set. -/
theorem evaluate_budget_completion_and_pass (prompt : String) (pack : RetrievalPack)
    (b : LLMBudgetConfig) (usage : UsageSnapshot) (seen : List String) (maxOut : Int)
    (fc : Nat) (targets : Int × Int) :
    (evaluateBudget prompt pack b usage seen maxOut fc targets).completion_tokens_budget =
      max 1 (min maxOut b.max_completion_tokens) ∧
    ((evaluateBudget prompt pack b usage seen maxOut fc targets).passed = true ↔
      ((evaluateBudget prompt pack b usage seen maxOut fc targets).exceeded.request_prompt = false ∧
       (evaluateBudget prompt pack b usage seen maxOut fc targets).exceeded.request_completion = false ∧
       (evaluateBudget prompt pack b usage seen maxOut fc targets).exceeded.batch_total = false ∧
       (evaluateBudget prompt pack b usage seen maxOut fc targets).exceeded.day_total = false ∧
       (evaluateBudget prompt pack b usage seen maxOut fc targets).exceeded.explore_floor = false)) := by
  refine ⟨rfl, ?_⟩
  simp only [evaluateBudget]
  simp only [Bool.not_eq_true', Bool.or_eq_false_iff]
  tauto

/-- C10: whenever the configured completion ceiling is at least 1, the
`request_completion` exceeded flag is unreachable — the completion budget
is clamped to `max(1, min(requested, ceiling))`, which never exceeds the
ceiling. -/
theorem request_completion_flag_unreachable (prompt : String) (pack : RetrievalPack)
    (b : LLMBudgetConfig) (usage : UsageSnapshot) (seen : List String) (maxOut : Int)
    (fc : Nat) (targets : Int × Int) (h : 1 ≤ b.max_completion_tokens) :
    (evaluateBudget prompt pack b usage seen maxOut fc targets).exceeded.request_completion =
      false := by
  simp only [evaluateBudget]
  simp only [decide_eq_false_iff_not, not_lt]
  omega

/-- C10 witness: the default budget config has a positive completion
ceiling and the flag is indeed false on a concrete evaluation. -/
theorem request_completion_flag_unreachable_witness :
    (1 : Int) ≤ sampleBudget.max_completion_tokens ∧
      (evaluateBudget "" samplePackCloseOnly sampleBudget {} [] 0 0 (0, 0)).exceeded.request_completion =
        false :=
  ⟨by decide,
    request_completion_flag_unreachable "" samplePackCloseOnly sampleBudget {} [] 0 0 (0, 0)
      (by decide)⟩

/-! ### C9: repair operates only on the deep clone -/

/-- C9: `repair_candidate` deep-copies the candidate and applies every
rewrite to the copy; the caller's candidate object — its expression and
generation notes included — is unchanged by the call. -/
theorem repair_preserves_caller_candidate (sv : StaticValidator) (candidate : CandidateAlpha)
    (issues : List ValidationIssue) (pack : RetrievalPack) :
    (repairCandidateHeap sv candidate issues pack).orig = candidate := by
  unfold repairCandidateHeap
  dsimp only
  split <;> rfl

/-! ### C2: error signatures -/

theorem sortedStrings_perm_eq {l₁ l₂ : List String} (h : l₁.Perm l₂) :
    sortedStrings l₁ = sortedStrings l₂ := by
  unfold sortedStrings
  exact List.eq_of_perm_of_sorted
    (((List.perm_insertionSort strDataLe l₁).trans h).trans
      (List.perm_insertionSort strDataLe l₂).symm)
    (List.sorted_insertionSort strDataLe l₁)
    (List.sorted_insertionSort strDataLe l₂)

theorem mapErrorGo_code_mem (rows : List TaxonomyRow) (msg : String) :
    (mapErrorGo rows msg).code ∈ rows.map TaxonomyRow.error_key ++ ["validation_error"] := by
  induction rows with
  | nil => simp [mapErrorGo]
  | cons row rest ih =>
    unfold mapErrorGo
    split
    · simp
    · simp only [List.map_cons, List.cons_append, List.mem_cons]
      exact Or.inr ih

/-- The closed set of issue codes the gate can emit. -/
def allErrorCodes : List String :=
  VALIDATION_ERROR_TAXONOMY.map TaxonomyRow.error_key ++ ["validation_error"]

theorem mapError_code_mem (msg : String) : (mapError msg).code ∈ allErrorCodes :=
  mapErrorGo_code_mem VALIDATION_ERROR_TAXONOMY msg

theorem allErrorCodes_long : ∀ c ∈ allErrorCodes, 6 ≤ c.length := by
  decide

theorem joinBar_length_ge_head (c : String) (cs : List String) :
    c.length ≤ (joinBar (c :: cs)).length := by
  cases cs with
  | nil => simp [joinBar]
  | cons c' r =>
    show c.length ≤ (c ++ "|" ++ joinBar (c' :: r)).length
    simp only [String.length_append]
    have h1 : "|".length = 1 := rfl
    omega

theorem validateCandidate_codes_eq (sv : StaticValidator) (c : CandidateAlpha) :
    (validateCandidate sv c).issues.map ValidationIssue.code =
      (validate sv (candidateExpression c) c.simulation_settings.simType).errors.map
        (fun m => (mapError m).code) := by
  simp [validateCandidate, classifyErrors, List.map_map]

theorem errorSignature_ne_VALID (issues : List ValidationIssue)
    (hne : issues ≠ [])
    (hmem : ∀ code ∈ issues.map ValidationIssue.code, code ∈ allErrorCodes) :
    errorSignature issues ≠ "VALID" := by
  have hcodes : issues.map ValidationIssue.code ≠ [] := by
    simpa using hne
  unfold errorSignature
  rw [if_neg (by simpa using hne)]
  intro hval
  have hlen5 : (joinBar (sortedStrings (issues.map ValidationIssue.code))).length = 5 := by
    rw [hval]
    rfl
  have hlenpos : 0 < (sortedStrings (issues.map ValidationIssue.code)).length := by
    unfold sortedStrings
    rw [List.length_insertionSort]
    exact List.length_pos.mpr hcodes
  obtain ⟨c, cs, hccs⟩ := List.exists_cons_of_ne_nil (List.length_pos.mp hlenpos)
  have hcmem : c ∈ sortedStrings (issues.map ValidationIssue.code) := by
    rw [hccs]
    exact List.mem_cons_self c cs
  have hcmem' : c ∈ issues.map ValidationIssue.code := by
    unfold sortedStrings at hcmem
    exact (List.mem_insertionSort strDataLe).mp hcmem
  have hclong : 6 ≤ c.length := allErrorCodes_long c (hmem c hcmem')
  have := joinBar_length_ge_head c cs
  rw [← hccs] at this
  omega

/-- C2 counterexample: `foo(close)` and `foo(bar(close))` both classify to
the issue-code *set* `{unknown_operator}`, yet their error signatures differ
(`unknown_operator` vs `unknown_operator|unknown_operator`): the signature
is a function of the code multiset, not the code set. -/
theorem error_signature_not_function_of_code_set :
    ((validateCandidate sampleValidator sampleCandidateFoo).issues.map
        ValidationIssue.code).toFinset =
      ((validateCandidate sampleValidator sampleCandidateFooBar).issues.map
        ValidationIssue.code).toFinset ∧
    (validateCandidate sampleValidator sampleCandidateFoo).error_signature ≠
      (validateCandidate sampleValidator sampleCandidateFooBar).error_signature := by
  constructor
  · decide
  · decide

/-- C2 (amended): the error signature is a pure function of the issue-code
*multiset*: any two candidates whose classified code lists are permutations
of one another get the identical signature string, and the signature is the
literal `VALID` exactly when there are no issues. -/
theorem error_signature_of_code_multiset :
    (∀ (sv : StaticValidator) (c₁ c₂ : CandidateAlpha),
      ((validateCandidate sv c₁).issues.map ValidationIssue.code).Perm
          ((validateCandidate sv c₂).issues.map ValidationIssue.code) →
        (validateCandidate sv c₁).error_signature =
          (validateCandidate sv c₂).error_signature) ∧
    (∀ (sv : StaticValidator) (c : CandidateAlpha),
      (validateCandidate sv c).error_signature = "VALID" ↔
        (validateCandidate sv c).issues = []) := by
  have hsig : ∀ (sv : StaticValidator) (c : CandidateAlpha),
      (validateCandidate sv c).error_signature =
        errorSignature ((validateCandidate sv c).issues) := by
    intro sv c
    rfl
  constructor
  · intro sv c₁ c₂ hperm
    rw [hsig, hsig]
    unfold errorSignature
    have hlen := hperm.length_eq
    by_cases hempty : (validateCandidate sv c₁).issues = []
    · have h₂ : (validateCandidate sv c₂).issues = [] := by
        have : ((validateCandidate sv c₂).issues.map ValidationIssue.code).length = 0 := by
          rw [← hlen, hempty]
          simp
        simpa using this
      simp [hempty, h₂]
    · have h₂ : (validateCandidate sv c₂).issues ≠ [] := by
        intro hc
        apply hempty
        have : ((validateCandidate sv c₁).issues.map ValidationIssue.code).length = 0 := by
          rw [hlen, hc]
          simp
        simpa using this
      rw [if_neg (by simpa using hempty), if_neg (by simpa using h₂)]
      rw [sortedStrings_perm_eq hperm]
  · intro sv c
    constructor
    · intro hval
      by_contra hne
      apply errorSignature_ne_VALID ((validateCandidate sv c).issues) hne _ (by rw [← hsig]; exact hval)
      intro code hcode
      rw [validateCandidate_codes_eq] at hcode
      obtain ⟨m, _, hm⟩ := List.mem_map.mp hcode
      rw [← hm]
      exact mapError_code_mem m
    · intro hempty
      rw [hsig, hempty]
      rfl

/-- C2 witness: two distinct candidates with permuted (here equal) code
lists receive the identical signature. -/
theorem error_signature_of_code_multiset_witness :
    (validateCandidate sampleValidator sampleCandidateFoo).error_signature =
      (validateCandidate sampleValidator sampleCandidateBaz).error_signature :=
  error_signature_of_code_multiset.1 sampleValidator sampleCandidateFoo sampleCandidateBaz
    (by decide)

/-! ### C5: synthesis round-trip -/

theorem firstPackTemplate_valid (sv : StaticValidator) (ops : List String) :
    ∀ ts e, firstPackTemplate sv ops ts = some e →
      (validate sv e "REGULAR").is_valid = true := by
  intro ts
  induction ts with
  | nil => intro e h; exact absurd h (by simp [firstPackTemplate])
  | cons t rest ih =>
    intro e h
    unfold firstPackTemplate at h
    obtain ⟨expr, req⟩ := t
    split at h
    · exact ih e h
    · split at h
      · cases h
        assumption
      · exact ih e h

theorem firstValidTemplate_valid (sv : StaticValidator) :
    ∀ ts e, firstValidTemplate sv ts = some e →
      (validate sv e "REGULAR").is_valid = true := by
  intro ts
  induction ts with
  | nil => intro e h; exact absurd h (by simp [firstValidTemplate])
  | cons t rest ih =>
    intro e h
    unfold firstValidTemplate at h
    obtain ⟨expr, req⟩ := t
    split at h
    · cases h
      assumption
    · exact ih e h

/-- C5 counterexample: for a pack whose only field `f1` is unknown to the
validator (whose catalogs are empty), every synthesis template fails and
the final fallback returns the bare field `f1`, which does not validate —
`validate(synthesize(pack))` is not always valid. -/
theorem synthesize_roundtrip_counterexample :
    samplePackF1.candidate_fields ≠ [] ∧
      (validate emptyValidator (synthesizeExpression emptyValidator samplePackF1)
        "REGULAR").is_valid = false := by
  constructor
  · decide
  · decide

/-- C5 (amended): `validate(synthesize(pack))` is valid for any pack with
at least one field, provided the chosen bare field (`any_field`: the
matrix-preferred pack field, falling back to the validator catalog or the
literal `close`) itself validates — every earlier synthesis return is
guarded by a validation check, and the bare-field fallback is then valid
by assumption. Without that proviso the final fallback can return an
invalid bare field. -/
theorem synthesize_roundtrip_valid (sv : StaticValidator) (pack : RetrievalPack)
    (hfields : pack.candidate_fields ≠ [])
    (hbare : (validate sv (synthAnyField sv pack) "REGULAR").is_valid = true) :
    (validate sv (synthesizeExpression sv pack) "REGULAR").is_valid = true := by
  unfold synthesizeExpression
  dsimp only
  split
  · rename_i e h
    exact firstPackTemplate_valid sv _ _ e h
  · split
    · rename_i e h
      exact firstValidTemplate_valid sv _ e h
    · rw [if_pos hbare]
      exact hbare

/-- C5 witness: the `close`-only pack against the sample validator
satisfies both hypotheses, and the round-trip is valid. -/
theorem synthesize_roundtrip_valid_witness :
    samplePackCloseOnly.candidate_fields ≠ [] ∧
      (validate sampleValidator (synthesizeExpression sampleValidator samplePackCloseOnly)
        "REGULAR").is_valid = true :=
  ⟨by decide,
    synthesize_roundtrip_valid sampleValidator samplePackCloseOnly (by decide) (by decide)⟩

/-! ### C1: repair vocabulary -/

theorem mem_uniqueAux (x : String) :
    ∀ (l seen : List String), x ∈ uniqueAux l seen ↔ (x ∈ l ∧ x ∉ seen) := by
  intro l
  induction l with
  | nil => intro seen; simp [uniqueAux]
  | cons a l ih =>
    intro seen
    unfold uniqueAux
    split
    · rename_i hseen
      rw [ih seen]
      simp only [List.mem_cons]
      constructor
      · rintro ⟨hl, hns⟩
        exact ⟨Or.inr hl, hns⟩
      · rintro ⟨ha | hl, hns⟩
        · subst ha
          exact absurd (by simpa using hseen) hns
        · exact ⟨hl, hns⟩
    · rename_i hseen
      simp only [List.mem_cons, ih (a :: seen)]
      constructor
      · rintro (rfl | ⟨hl, hns⟩)
        · exact ⟨Or.inl rfl, by simpa using hseen⟩
        · refine ⟨Or.inr hl, fun hx => hns (by simp [hx])⟩
      · rintro ⟨rfl | hl, hns⟩
        · exact Or.inl rfl
        · by_cases hxa : x = a
          · exact Or.inl hxa
          · exact Or.inr ⟨hl, fun hx => hx.elim hxa hns⟩

theorem mem_uniqueList {x : String} {l : List String} : x ∈ uniqueList l ↔ x ∈ l := by
  unfold uniqueList
  rw [mem_uniqueAux]
  simp

theorem flatMap_eq_nil_forall {α β : Type} {f : α → List β} :
    ∀ {l : List α}, l.flatMap f = [] → ∀ x ∈ l, f x = [] := by
  intro l
  induction l with
  | nil => intro _ x hx; cases hx
  | cons a l ih =>
    intro h x hx
    rw [List.flatMap_cons, List.append_eq_nil] at h
    rcases List.mem_cons.mp hx with rfl | hx'
    · exact h.1
    · exact ih h.2 x hx'

theorem validate_valid_parts (sv : StaticValidator) (e t : String)
    (h : (validate sv e t).is_valid = true) :
    (extractCalls e).flatMap (callErrors sv t) = [] ∧
      ((uniqueList (findIdents e.data)).filter fun tok =>
          !(uniqueList ((extractCalls e).map FunctionCall.name)).contains tok &&
            !isNumberTok tok).filter
        (fun f => (lookupFieldRow sv.fields f).isNone) = [] := by
  unfold validate at h
  by_cases hs : (stripString e).isEmpty
  · rw [if_pos hs] at h
    exact absurd h (by decide)
  · rw [if_neg hs] at h
    dsimp only at h
    rw [List.isEmpty_iff] at h
    have h1 := (List.append_eq_nil.mp h).1
    have h11 := (List.append_eq_nil.mp h1).1
    have h12 := (List.append_eq_nil.mp h1).2
    have h112 := (List.append_eq_nil.mp h11).2
    refine ⟨h112, ?_⟩
    rwa [List.map_eq_nil_iff] at h12

/-- Every identifier token of an expression the validator accepts is a
numeric literal, a known operator, or a known data field. -/
theorem validate_valid_tokens (sv : StaticValidator) (e t : String)
    (h : (validate sv e t).is_valid = true) :
    ∀ tok ∈ findIdents e.data,
      isNumberTok tok = true ∨ (lookupOperatorRow sv.operators tok).isSome = true ∨
        (lookupFieldRow sv.fields tok).isSome = true := by
  obtain ⟨hcalls, hfields⟩ := validate_valid_parts sv e t h
  intro tok htok
  by_cases hop : tok ∈ (extractCalls e).map FunctionCall.name
  · obtain ⟨call, hcallmem, hname⟩ := List.mem_map.mp hop
    have hce : callErrors sv t call = [] := flatMap_eq_nil_forall hcalls call hcallmem
    unfold callErrors at hce
    right; left
    rw [← hname]
    cases hlook : lookupOperatorRow sv.operators call.name with
    | none => rw [hlook] at hce; exact absurd hce (by simp)
    | some _ => simp
  · by_cases hnum : isNumberTok tok
    · exact Or.inl hnum
    · right; right
      have htok' : tok ∈ (uniqueList (findIdents e.data)).filter fun tok =>
          !(uniqueList ((extractCalls e).map FunctionCall.name)).contains tok &&
            !isNumberTok tok := by
        rw [List.mem_filter]
        refine ⟨mem_uniqueList.mpr htok, ?_⟩
        have hc : (uniqueList ((extractCalls e).map FunctionCall.name)).contains tok = false := by
          rw [List.contains_eq_any_beq]
          simp only [List.any_eq_false]
          intro y hy
          intro hbeq
          apply hop
          have : tok = y := by simpa using hbeq
          rw [this]
          exact mem_uniqueList.mp hy
        rw [hc]
        simpa using hnum
      cases hlook : lookupFieldRow sv.fields tok with
      | some _ => simp
      | none =>
        exfalso
        have : tok ∈ ((uniqueList (findIdents e.data)).filter fun tok =>
            !(uniqueList ((extractCalls e).map FunctionCall.name)).contains tok &&
              !isNumberTok tok).filter (fun f => (lookupFieldRow sv.fields f).isNone) := by
          rw [List.mem_filter]
          exact ⟨htok', by rw [hlook]; rfl⟩
        rw [hfields] at this
        cases this

theorem fallbackFieldFromValidator_mem (sv : StaticValidator) (pref : Option String)
    (fid : String) (h : fallbackFieldFromValidator sv pref = some fid) :
    fid ∈ fieldDictKeys sv.fields := by
  unfold fallbackFieldFromValidator at h
  dsimp only at h
  split at h
  · rename_i k hfind
    cases h
    cases pref with
    | some p =>
      simp only at hfind
      exact List.mem_of_find?_eq_some hfind
    | none => cases hfind
  · exact List.mem_of_mem_head? h

theorem pickFieldId_mem (sv : StaticValidator) (pack : RetrievalPack) (pref : Option String)
    (fid : String) (h : pickFieldId sv pack pref = some fid) :
    fid ∈ pack.candidate_fields.map FieldCandidate.id ∨ fid ∈ fieldDictKeys sv.fields := by
  unfold pickFieldId at h
  dsimp only at h
  split at h
  · rename_i fid' hsome
    cases h
    cases pref with
    | some p =>
      simp only [Option.map_eq_some'] at hsome
      obtain ⟨f, hfind, hid⟩ := hsome
      left
      rw [← hid]
      exact List.mem_map_of_mem FieldCandidate.id (List.mem_of_find?_eq_some hfind)
    | none => cases hsome
  · split at h
    · rename_i f rest heq
      cases h
      left
      rw [heq]
      simp
    · exact Or.inr (fallbackFieldFromValidator_mem sv pref fid h)

theorem synthAnyField_cases (sv : StaticValidator) (pack : RetrievalPack) :
    synthAnyField sv pack ∈ pack.candidate_fields.map FieldCandidate.id ∨
      synthAnyField sv pack ∈ fieldDictKeys sv.fields ∨
      synthAnyField sv pack = "close" := by
  unfold synthAnyField truthyOr
  cases hm : pickFieldId sv pack (some "MATRIX") with
  | some s =>
    dsimp only
    by_cases hse : s.isEmpty
    · rw [if_pos hse]
      cases hp : pickFieldId sv pack none with
      | some s' =>
        dsimp only
        by_cases hse' : s'.isEmpty
        · rw [if_pos hse']
          right; right; rfl
        · rw [if_neg hse']
          rcases pickFieldId_mem sv pack none s' hp with hmem | hmem
          · exact Or.inl hmem
          · exact Or.inr (Or.inl hmem)
      | none => right; right; rfl
    · rw [if_neg hse]
      rcases pickFieldId_mem sv pack (some "MATRIX") s hm with hmem | hmem
      · exact Or.inl hmem
      · exact Or.inr (Or.inl hmem)
  | none =>
    dsimp only
    cases hp : pickFieldId sv pack none with
    | some s' =>
      dsimp only
      by_cases hse' : s'.isEmpty
      · rw [if_pos hse']
        right; right; rfl
      · rw [if_neg hse']
        rcases pickFieldId_mem sv pack none s' hp with hmem | hmem
        · exact Or.inl hmem
        · exact Or.inr (Or.inl hmem)
    | none => right; right; rfl

theorem synthesizeExpression_cases (sv : StaticValidator) (pack : RetrievalPack) :
    (validate sv (synthesizeExpression sv pack) "REGULAR").is_valid = true ∨
      synthesizeExpression sv pack = synthAnyField sv pack := by
  unfold synthesizeExpression
  dsimp only
  split
  · rename_i e h
    exact Or.inl (firstPackTemplate_valid sv _ _ e h)
  · split
    · rename_i e h
      exact Or.inl (firstValidTemplate_valid sv _ e h)
    · split
      · right; rfl
      · split
        · rename_i fb hfb
          split
          · rename_i hok
            exact Or.inl hok
          · split
            · rename_i hok
              exact Or.inl hok
            · right; rfl
        · right; rfl

theorem truthyOr_some_of_ne (s : String) (hs : s ≠ "") (b : String) :
    truthyOr (some s) b = s := by
  unfold truthyOr
  dsimp only
  rw [if_neg (by simpa [String.isEmpty_iff] using hs)]

theorem validate_empty_invalid (sv : StaticValidator) (t : String) :
    (validate sv "" t).is_valid = false :=
  rfl

theorem findIdents_empty : findIdents "".data = [] :=
  rfl

/-- In the forced-synthesis case, the stored expression either validates
(and so has catalog-bounded identifiers) or is the bare `any_field`. -/
theorem synth_branch_bounded (sv : StaticValidator) (pack : RetrievalPack) :
    (∀ tok ∈ findIdents (truthyOr (some (synthesizeExpression sv pack)) "").data,
        isNumberTok tok = true ∨ (lookupOperatorRow sv.operators tok).isSome = true ∨
          (lookupFieldRow sv.fields tok).isSome = true) ∨
      (truthyOr (some (synthesizeExpression sv pack)) "" ∈
          pack.candidate_fields.map FieldCandidate.id ∨
        truthyOr (some (synthesizeExpression sv pack)) "" ∈ fieldDictKeys sv.fields ∨
        truthyOr (some (synthesizeExpression sv pack)) "" = "close") := by
  by_cases hempty : synthesizeExpression sv pack = ""
  · left
    rw [hempty]
    intro tok htok
    rw [show truthyOr (some "") "" = "" from rfl, findIdents_empty] at htok
    cases htok
  · rw [truthyOr_some_of_ne _ hempty]
    rcases synthesizeExpression_cases sv pack with hvalid | hany
    · exact Or.inl (validate_valid_tokens sv _ "REGULAR" hvalid)
    · rw [hany]
      exact Or.inr (synthAnyField_cases sv pack)

/-- C1 counterexample: repairing an empty-expression candidate against a
pack that has the field `close` but *no* candidate operators synthesizes
`rank(ts_delta(close, 5))` from the validator's catalog — the repaired
expression uses the operator `rank`, which is in neither the pack's
candidate-operator names nor its candidate-field ids. -/
theorem repair_uses_vocabulary_outside_pack :
    "rank" ∈ inferUsedOperators
        (truthyOr (repairCandidate sampleValidator sampleCandidateEmpty []
          samplePackCloseOnly).simulation_settings.regular "") ∧
      "rank" ∉ samplePackCloseOnly.candidate_operators.map OperatorCandidate.name ∧
      "rank" ∉ samplePackCloseOnly.candidate_fields.map FieldCandidate.id := by
  refine ⟨by decide, by decide, by decide⟩

/-- C1 (amended): the expression produced by `repair_candidate` draws its
vocabulary from the validator's catalog rather than arbitrary text — it
either passes the gate's validator (so every identifier token in it is a
numeric literal, an operator known to the validator, or a field known to
the validator), or it is exactly a bare field id drawn from the pack's
candidate fields, the validator's field catalog, or the literal default
`close`. The pack's candidate lists alone do *not* bound the vocabulary:
the synthesis fallbacks may introduce validator-catalog names absent from
the pack. -/
theorem repair_vocabulary_bounded (sv : StaticValidator) (cand : CandidateAlpha)
    (issues : List ValidationIssue) (pack : RetrievalPack) :
    (∀ tok ∈ findIdents (truthyOr (repairCandidate sv cand issues
          pack).simulation_settings.regular "").data,
        isNumberTok tok = true ∨ (lookupOperatorRow sv.operators tok).isSome = true ∨
          (lookupFieldRow sv.fields tok).isSome = true) ∨
      (truthyOr (repairCandidate sv cand issues pack).simulation_settings.regular "" ∈
          pack.candidate_fields.map FieldCandidate.id ∨
        truthyOr (repairCandidate sv cand issues pack).simulation_settings.regular "" ∈
          fieldDictKeys sv.fields ∨
        truthyOr (repairCandidate sv cand issues pack).simulation_settings.regular "" =
          "close") := by
  unfold repairCandidate repairCandidateHeap
  dsimp only
  split
  · exact synth_branch_bounded sv pack
  · rename_i hpost
    have hvalid : (validate sv
        (truthyOr (some (stripString (repairExpression sv pack issues (candidateExpression cand))))
          "") "REGULAR").is_valid = true := by
      simpa using hpost
    dsimp only
    exact Or.inl (validate_valid_tokens sv _ "REGULAR" hvalid)

/-! ### C6: event-order checker -/

/-- Modelled from the spec (Scenario E): the hypothesis "some
`validation.started` event occurs after the `agent.alpha_generated`
event", as a scan. -/
def startedAfterAlpha : List String → Bool
  | [] => false
  | e :: rest =>
    if e == "agent.alpha_generated" then
      rest.contains "validation.started" || startedAfterAlpha rest
    else startedAfterAlpha rest

theorem startedAfterAlpha_spec :
    ∀ (l : List String), startedAfterAlpha l = false →
      ∀ p q, p < q → l.getD p "" = "agent.alpha_generated" →
        l.getD q "" ≠ "validation.started" := by
  intro l
  induction l with
  | nil =>
    intro _ p q _ hp
    exact absurd hp (by simp)
  | cons e rest ih =>
    intro h p q hpq hp hq
    unfold startedAfterAlpha at h
    cases p with
    | zero =>
      have he : e = "agent.alpha_generated" := by simpa using hp
      rw [if_pos (by simp [he])] at h
      obtain ⟨hc1, _⟩ := Bool.or_eq_false_iff.mp h
      obtain ⟨q', rfl⟩ : ∃ k, q = k + 1 := ⟨q - 1, by omega⟩
      have hq' : rest.getD q' "" = "validation.started" := by simpa using hq
      by_cases hlt : q' < rest.length
      · have hmem : "validation.started" ∈ rest := by
          rw [← hq']
          rw [show rest.getD q' "" = rest.get ⟨q', hlt⟩ by
            simp [List.getD_eq_getElem?_getD, List.getElem?_eq_getElem hlt]]
          exact List.get_mem rest q' hlt
        have hcont : rest.contains "validation.started" = true := by simpa using hmem
        rw [hcont] at hc1
        cases hc1
      · rw [show rest.getD q' "" = "" by
          simp [List.getD_eq_getElem?_getD, List.getElem?_eq_none (by omega : rest.length ≤ q')]] at hq'
        exact absurd hq' (by decide)
    | succ p' =>
      have hrest : startedAfterAlpha rest = false := by
        split at h
        · exact (Bool.or_eq_false_iff.mp h).2
        · exact h
      obtain ⟨q', rfl⟩ : ∃ k, q = k + 1 := ⟨q - 1, by omega⟩
      exact ih hrest p' q' (by omega) (by simpa using hp) (by simpa using hq)

theorem firstIndexGo_found (events keys : List String) :
    ∀ (fuel idx : Nat) (j : Int), firstIndexGo fuel events keys idx = j → j ≠ -1 →
      ∃ n : Nat, j = (n : Int) ∧ n < events.length ∧ events.getD n "" ∈ keys := by
  intro fuel
  induction fuel with
  | zero =>
    intro idx j h hne
    exact absurd h.symm (by simpa [firstIndexGo] using hne)
  | succ f ih =>
    intro idx j h hne
    unfold firstIndexGo at h
    split at h
    · rename_i hlt
      split at h
      · rename_i hcont
        refine ⟨idx, h.symm, hlt, ?_⟩
        rw [show events.getD idx "" = events.get ⟨idx, hlt⟩ by
          simp [List.getD_eq_getElem?_getD, List.getElem?_eq_getElem hlt]]
        simpa using hcont
      · exact ih (idx + 1) j h hne
    · exact absurd h.symm (by simpa using hne)

/-- C6: whenever no `validation.started` event occurs after the
`agent.alpha_generated` event (in particular when `validation.started` is
absent entirely), the post-loop order-invariant checker reports a
violation. -/
theorem missing_validation_started_is_violation (records : List EventRecord)
    (expectSimulation : Bool)
    (h : startedAfterAlpha (records.map eventTypeFromRecord) = false) :
    detectEventOrderViolation records expectSimulation = true := by
  unfold detectEventOrderViolation
  by_cases hempty : (records.map eventTypeFromRecord).isEmpty
  · rw [if_pos hempty]
  · rw [if_neg hempty]
    have hcond : ((firstIndex (records.map eventTypeFromRecord) ["agent.alpha_generated"] 0 == -1) ||
        (firstIndex (records.map eventTypeFromRecord) ["validation.started"] 0 == -1) ||
        decide (firstIndex (records.map eventTypeFromRecord) ["agent.alpha_generated"] 0 ≥
          firstIndex (records.map eventTypeFromRecord) ["validation.started"] 0)) = true := by
      by_cases ha : firstIndex (records.map eventTypeFromRecord) ["agent.alpha_generated"] 0 = -1
      · simp [ha]
      · by_cases hv : firstIndex (records.map eventTypeFromRecord) ["validation.started"] 0 = -1
        · simp [hv]
        · obtain ⟨na, hja, hna, hamem⟩ := firstIndexGo_found (records.map eventTypeFromRecord)
            ["agent.alpha_generated"] ((records.map eventTypeFromRecord).length + 1)
            (max 0 (0 : Int)).toNat
            (firstIndex (records.map eventTypeFromRecord) ["agent.alpha_generated"] 0) rfl ha
          obtain ⟨nv, hjv, hnv, hvmem⟩ := firstIndexGo_found (records.map eventTypeFromRecord)
            ["validation.started"] ((records.map eventTypeFromRecord).length + 1)
            (max 0 (0 : Int)).toNat
            (firstIndex (records.map eventTypeFromRecord) ["validation.started"] 0) rfl hv
          have hageta : (records.map eventTypeFromRecord).getD na "" = "agent.alpha_generated" := by
            simpa using hamem
          have hvgets : (records.map eventTypeFromRecord).getD nv "" = "validation.started" := by
            simpa using hvmem
          have hge : nv ≤ na := by
            by_contra hlt
            exact startedAfterAlpha_spec _ h na nv (by omega) hageta hvgets
          have hge2 : firstIndex (records.map eventTypeFromRecord) ["agent.alpha_generated"] 0 ≥
              firstIndex (records.map eventTypeFromRecord) ["validation.started"] 0 := by
            rw [hja, hjv]
            exact_mod_cast hge
          simp [hge2]
    rw [if_pos hcond]

/-- C6 witness: a log holding only `agent.alpha_generated` has no
`validation.started` after it, and the checker flags it. -/
theorem missing_validation_started_is_violation_witness :
    startedAfterAlpha (([⟨"agent.alpha_generated", none⟩] : List EventRecord).map
        eventTypeFromRecord) = false ∧
      detectEventOrderViolation [⟨"agent.alpha_generated", none⟩] false = true :=
  ⟨by decide, missing_validation_started_is_violation [⟨"agent.alpha_generated", none⟩] false
    (by decide)⟩

/-! ### C3: budget enforcement schedule -/

theorem specEnforceLoop_append_factors {I K : Type} (ctx : EnforceCtx I K) (phase : String) :
    ∀ (factors : List ℚ) (rest : List (String × ℚ)) (st : EnforceState),
      specEnforceLoop ctx ((factors.map fun f => (phase, f)) ++ rest) st =
        (match enforceFactors ctx phase factors st with
          | Sum.inl st' => specEnforceLoop ctx rest st'
          | Sum.inr r => r) := by
  intro factors
  induction factors with
  | nil =>
    intro rest st
    simp [enforceFactors]
  | cons fa fs ih =>
    intro rest st
    rw [List.map_cons, List.cons_append]
    show specEnforceLoop ctx ((phase, fa) :: ((fs.map fun f => (phase, f)) ++ rest)) st = _
    rw [specEnforceLoop]
    conv_rhs => rw [enforceFactors]
    unfold enforceStepBody
    dsimp only
    split
    · rw [ih]
      simp only [Bool.false_eq_true, if_false]
    · split
      · rename_i hp
        simp [hp]
      · rename_i hp
        simp only [hp, Bool.false_eq_true, if_false]
        rw [ih]

theorem enforcePhases_spec {I K : Type} (ctx : EnforceCtx I K) :
    ∀ (phases : List String) (st : EnforceState),
      Sum.elim (enforceBlocked ctx.usage) (fun result => result)
          (enforcePhases ctx phases st) =
        specEnforceLoop ctx
          (phases.flatMap fun p => ctx.budget.fallback_topk_steps.map fun f => (p, f)) st := by
  intro phases
  induction phases with
  | nil =>
    intro st
    simp [enforcePhases, specEnforceLoop]
  | cons p ps ih =>
    intro st
    rw [List.flatMap_cons]
    rw [specEnforceLoop_append_factors ctx p ctx.budget.fallback_topk_steps _ st]
    unfold enforcePhases
    cases h : enforceFactors ctx p ctx.budget.fallback_topk_steps st with
    | inl st' =>
      dsimp only
      exact ih st'
    | inr r =>
      rfl

/-- C3: `enforce_alpha_prompt_budget` follows exactly the spec's schedule:
one initial evaluation returning immediately when it passes; otherwise the
flattened shrink schedule — phases in the fixed order fields → operators →
subcategories, factors within each phase in their configured order —
skipping signature-unchanged steps without recording or re-evaluating,
returning the allowed result at the first passing evaluation, and an
`allowed := false` result with the accumulated fallback steps and final
evaluation when the schedule is exhausted. -/
theorem enforce_budget_matches_spec {I K : Type} (idea : I) (retrievalPack : RetrievalPack)
    (knowledge : K) (b : LLMBudgetConfig) (usage : UsageSnapshot) (seen : List String)
    (promptBuilder : I → RetrievalPack → K → String) (maxOutputTokens : Int) :
    enforceAlphaPromptBudget idea retrievalPack knowledge b usage seen promptBuilder
        maxOutputTokens =
      specEnforceAlphaPromptBudget idea retrievalPack knowledge b usage seen promptBuilder
        maxOutputTokens := by
  unfold enforceAlphaPromptBudget specEnforceAlphaPromptBudget
  dsimp only
  split
  · rfl
  · have h := enforcePhases_spec
      ({ idea := idea, knowledge := knowledge, budget := b, usage := usage,
         seenComboKeys := seen, promptBuilder := promptBuilder,
         maxOutputTokens := maxOutputTokens,
         targets := exploreFloorTargets retrievalPack b } : EnforceCtx I K)
      ["fields", "operators", "subcategories"]
      ({ pack := syncPackContracts retrievalPack b,
         prompt := promptBuilder idea (syncPackContracts retrievalPack b) knowledge,
         evaluation := evaluateBudget
           (promptBuilder idea (syncPackContracts retrievalPack b) knowledge)
           (syncPackContracts retrievalPack b) b usage seen maxOutputTokens 0
           (exploreFloorTargets retrievalPack b),
         fallbackCount := 0, steps := [] } : EnforceState)
    exact h

/-! ### C4: retrieval expansion at most once -/

theorem scaledCount_strict (value : Int) (factor : ℚ) : value < scaledCount value factor := by
  unfold scaledCount
  dsimp only
  split
  · have h1 : value ≤ max 1 value := le_max_right 1 value
    omega
  · rename_i hgt
    have h1 : value ≤ max 1 value := le_max_right 1 value
    omega

theorem runLoopGo_expansion_inv (sv : StaticValidator) (maxA : Nat) (stop : Bool)
    (rebuild : RetrievalBudgetConfig → RetrievalPack) (p0 : RetrievalPack) :
    ∀ (n : Nat) (st : LoopState),
      maxA + 1 - st.attempts ≤ n →
      (st.retrievalExpanded = false →
        st.pack = p0 ∧ st.events.countP LoopEvent.isExpansion = 0) →
      st.events.countP LoopEvent.isExpansion ≤ 1 →
      st.events.all (expansionEventOk p0) = true →
      (runLoopGo sv maxA stop rebuild st).events.countP LoopEvent.isExpansion ≤ 1 ∧
        (runLoopGo sv maxA stop rebuild st).events.all (expansionEventOk p0) = true := by
  intro n
  induction n with
  | zero =>
    intro st hn hfresh hcnt hall
    unfold runLoopGo
    dsimp only
    split
    · constructor
      · simp only [List.countP_append, List.countP_cons, List.countP_nil,
          apply_ite LoopEvent.isExpansion]
        simpa [LoopEvent.isExpansion] using hcnt
      · simp only [List.all_append, List.all_cons, List.all_nil,
          apply_ite (expansionEventOk p0)]
        simp [expansionEventOk, hall]
    · split
      · constructor
        · simp only [List.countP_append, List.countP_cons, List.countP_nil,
            apply_ite LoopEvent.isExpansion]
          simpa [LoopEvent.isExpansion] using hcnt
        · simp only [List.all_append, List.all_cons, List.all_nil,
            apply_ite (expansionEventOk p0)]
          simp [expansionEventOk, hall]
      · rename_i hge
        exfalso
        omega
  | succ m ih =>
    intro st hn hfresh hcnt hall
    unfold runLoopGo
    dsimp only
    split
    · constructor
      · simp only [List.countP_append, List.countP_cons, List.countP_nil,
          apply_ite LoopEvent.isExpansion]
        simpa [LoopEvent.isExpansion] using hcnt
      · simp only [List.all_append, List.all_cons, List.all_nil,
          apply_ite (expansionEventOk p0)]
        simp [expansionEventOk, hall]
    · split
      · constructor
        · simp only [List.countP_append, List.countP_cons, List.countP_nil,
            apply_ite LoopEvent.isExpansion]
          simpa [LoopEvent.isExpansion] using hcnt
        · simp only [List.all_append, List.all_cons, List.all_nil,
            apply_ite (expansionEventOk p0)]
          simp [expansionEventOk, hall]
      · rename_i hge
        generalize hd : (if ((validateCandidate sv st.candidate).error_signature == "VALID") = true
          then (0 : Nat) else 1) = d
        split
        · rename_i hexp
          simp only [Bool.and_eq_true, Bool.not_eq_true', decide_eq_true_eq] at hexp
          obtain ⟨⟨hre, hen⟩, hth⟩ := hexp
          obtain ⟨hpack, hzero⟩ := hfresh hre
          rw [hpack] at hth hen
          simp at hth
          refine ih _ (by dsimp only; omega) ?_ ?_ ?_
          · intro hcontra
            simp at hcontra
          · simp only [List.countP_append, List.countP_cons, List.countP_nil,
              apply_ite LoopEvent.isExpansion]
            simp [LoopEvent.isExpansion, hzero]
          · simp only [List.all_append, List.all_cons, List.all_nil,
              apply_ite (expansionEventOk p0)]
            simp [expansionEventOk, hall, hpack, hth, hen]
        · split
          · constructor
            · simp only [List.countP_append, List.countP_cons, List.countP_nil,
                apply_ite LoopEvent.isExpansion]
              simpa [LoopEvent.isExpansion] using hcnt
            · simp only [List.all_append, List.all_cons, List.all_nil,
                apply_ite (expansionEventOk p0)]
              simp [expansionEventOk, hall]
          · refine ih _ (by dsimp only; omega) ?_ ?_ ?_
            · intro hre
              obtain ⟨hpack, hzero⟩ := hfresh hre
              refine ⟨hpack, ?_⟩
              simp only [List.countP_append, List.countP_cons, List.countP_nil,
                apply_ite LoopEvent.isExpansion]
              simp [LoopEvent.isExpansion, hzero]
            · simp only [List.countP_append, List.countP_cons, List.countP_nil,
                apply_ite LoopEvent.isExpansion]
              simpa [LoopEvent.isExpansion] using hcnt
            · simp only [List.all_append, List.all_cons, List.all_nil,
                apply_ite (expansionEventOk p0)]
              simp [expansionEventOk, hall]

/-- C4: the validation-repair loop expands retrieval at most once per run;
every `validation.retrieval_expanded` event it publishes records a repeat
count that reached the trigger threshold of the initial pack, whose
expansion policy must be enabled; and the lane-budget counts of the config
handed to the rebuild are each strictly greater than their originals
(`_scaled_count` strictly increases every value). -/
theorem loop_expansion_once_and_strict (sv : StaticValidator) (candidate : CandidateAlpha)
    (pack : RetrievalPack) (maxRepairAttempts : Int) (stopOnRepeated : Bool)
    (rebuild : RetrievalBudgetConfig → RetrievalPack) :
    ((runValidationPhase sv candidate pack maxRepairAttempts stopOnRepeated
        rebuild).events.countP LoopEvent.isExpansion ≤ 1 ∧
      (runValidationPhase sv candidate pack maxRepairAttempts stopOnRepeated
        rebuild).events.all (expansionEventOk pack) = true) ∧
    (∀ (value : Int) (factor : ℚ), value < scaledCount value factor) ∧
    (∀ q : RetrievalPack,
      q.budget_policy.exploit.subcategories < (expandedBudgetConfig q).exploit.subcategories ∧
      q.budget_policy.exploit.datasets < (expandedBudgetConfig q).exploit.datasets ∧
      q.budget_policy.exploit.fields < (expandedBudgetConfig q).exploit.fields ∧
      q.budget_policy.exploit.operators < (expandedBudgetConfig q).exploit.operators ∧
      q.budget_policy.explore.subcategories < (expandedBudgetConfig q).explore.subcategories ∧
      q.budget_policy.explore.datasets < (expandedBudgetConfig q).explore.datasets ∧
      q.budget_policy.explore.fields < (expandedBudgetConfig q).explore.fields ∧
      q.budget_policy.explore.operators < (expandedBudgetConfig q).explore.operators) := by
  refine ⟨?_, fun value factor => scaledCount_strict value factor, ?_⟩
  · unfold runValidationPhase
    dsimp only
    exact runLoopGo_expansion_inv sv (max 0 maxRepairAttempts).toNat stopOnRepeated rebuild pack
      ((max 0 maxRepairAttempts).toNat + 1) _ (by omega)
      (fun _ => ⟨rfl, rfl⟩)
      (by simp [List.countP_cons, List.countP_nil, LoopEvent.isExpansion]) (by rfl)
  · intro q
    unfold expandedBudgetConfig laneBudgetFromPayload
    dsimp only
    exact ⟨scaledCount_strict _ _, scaledCount_strict _ _, scaledCount_strict _ _,
      scaledCount_strict _ _, scaledCount_strict _ _, scaledCount_strict _ _,
      scaledCount_strict _ _, scaledCount_strict _ _⟩

end BrainAgent
